import Mathlib

/-!
# Verification of the PyFluxPro batch orchestration layer

A shallow embedding of `scripts/pfp_batch.py`: the per-level sequential batch
runners (`do_L1_batch` .. `do_L6_batch`, `do_concatenate_batch`, ...), the level
orchestrator `do_levels_batch`, and the parallel per-site dispatcher
(`do_sites_batch` / `do_sites_batch_dispatcher`).

External collaborators (`pfp_io`, `pfp_compliance`, `pfp_levels`, `pfp_plot`,
...) are opaque to the orchestrator: each is modelled as a function supplied by
an `Env`, returning either a normal value or a raised exception (`Outcome`).
A configuration object returned by `get_controlfilecontents` is identified with
an opaque token (a `String`); the behaviour of every downstream collaborator is
a function of that token, which matches the orchestrator's view (it never
inspects the configuration itself, except for the site dispatcher reading
`cfg["level"]`, modelled by `Env.get_level`).

Each runner produces a `RunResult`: the ordered trace of observable events
(log lines and collaborator invocations), the number of reads of the
cooperative stop flag, and the exception propagated out of the function, if
any (`none` = the Python function returned normally).

The `main_ui.stop_flag` attribute is a boolean that an external actor (the
interactive UI) may change over time; it is modelled as a function from the
index of the read operation to the value read, `MainUI.stop_flag : Nat → Bool`.
-/

namespace PfpBatch

/-- Result of invoking an opaque collaborator: a normal return value, or a
raised Python exception carrying a message. -/
inductive Outcome (α : Type) where
  | ok (a : α)
  | exn (msg : String)
  deriving DecidableEq, Repr

/-- The only part of a dataset the batch runners inspect:
`ds.returncodes["value"]`. -/
structure Dataset where
  returncode : Int
  deriving DecidableEq, Repr

/-- A collaborator invocation recorded in the trace. -/
inductive CollabCall where
  | getCfc (path : String)                     -- pfp_io.get_controlfilecontents
  | compliance (level : String) (cfg : String) -- pfp_compliance.<level>_update_controlfile
  | handler (level : String) (cfg : String)    -- the level's processing handler
  | getInfilename (cfg : String)               -- pfp_io.get_infilenamefromcf
  | read (filename : String)                   -- pfp_io.NetCDFRead
  | getOutfilename (cfg : String)              -- pfp_io.get_outfilenamefromcf
  | write (filename : String)                  -- pfp_io.NetCDFWrite
  | plots (cfg : String)                       -- the "Plots" loop of L2/L3
  | parseConcat (cfg : String)                 -- pfp_compliance.ParseConcatenateControlFile
  | plotFingerprint (cfg : String)             -- pfp_plot.plot_fingerprint
  deriving DecidableEq, Repr

/-- An observable event: a log line (`logger.info` / `logger.warning` /
`logger.error`) or a collaborator invocation. -/
inductive Event where
  | info (msg : String)
  | warn (msg : String)
  | error (msg : String)
  | call (c : CollabCall)
  deriving DecidableEq, Repr

/-- The session object: only the cooperative stop flag matters to the loops.
`stop_flag n` is the value seen by the `n`-th read of `main_ui.stop_flag`. -/
structure MainUI where
  stop_flag : Nat → Bool

/-- A session whose stop flag is never set. -/
def noStop : MainUI := ⟨fun _ => false⟩

/-- Result of one batch runner invocation. -/
structure RunResult where
  trace : List Event
  reads : Nat
  exn : Option String
  deriving Repr

/-- The observable part of a `RunResult` that is independent of the absolute
stop-flag read counter. -/
def traceExn (r : RunResult) : List Event × Option String := (r.trace, r.exn)

/-- A control file set `cf_level`: an insertion-ordered mapping from
string-encoded ordinal keys to control-file paths. -/
abbrev ControlFileSet := List (String × String)

/-- `cf_level[i]` (keys handed to the runners always come from the mapping
itself, so the default is never reached). -/
def lookupCF (cf : ControlFileSet) (k : String) : String :=
  ((cf.find? (fun p => p.1 == k)).map Prod.snd).getD ""

/-- `os.path.split(p)[1]`: the final path component (everything after the
last `/`). -/
def basename (p : String) : String :=
  String.mk ((p.toList.reverse.takeWhile (fun c => c ≠ '/')).reverse)

/-- Decimal value of a digit string. -/
def digitsToNat (cs : List Char) : Nat :=
  cs.foldl (fun n c => n * 10 + (c.toNat - 48)) 0

/-- Is `c` an ASCII decimal digit? -/
def isDigitChar (c : Char) : Bool := decide (48 ≤ c.toNat ∧ c.toNat ≤ 57)

/-- Does Python's `int(s)` accept `s` (as an optionally negated decimal
numeral)? -/
def strIsInt (s : String) : Bool :=
  match s.toList with
  | [] => false
  | '-' :: cs => !cs.isEmpty && cs.all isDigitChar
  | cs => cs.all isDigitChar

/-- `int(s)` as used by `sorted(..., key=int)`; the runners only sort keys
for which `strIsInt` holds (on any other key Python's `sorted` would raise
`ValueError`). -/
def keyInt (s : String) : Int :=
  match s.toList with
  | '-' :: cs => -(digitsToNat cs : Int)
  | cs => (digitsToNat cs : Int)

/-- `sorted(list(cf_level.keys()), key=int)`: Python's sort is stable and
orders by the integer value of the key; insertion sort by `keyInt` is
stable, so it computes the same list. -/
def sortNumeric (ks : List String) : List String :=
  List.insertionSort (fun a b => keyInt a ≤ keyInt b) ks

/-- ASCII lowercasing of one character (`str.lower()`; level identifiers are
ASCII). -/
def lowerChar (c : Char) : Char :=
  if 65 ≤ c.toNat ∧ c.toNat ≤ 90 then Char.ofNat (c.toNat + 32) else c

/-- `s.lower()`. -/
def strLower (s : String) : String := String.mk (s.toList.map lowerChar)

/-- The configuration tokens on which a level handler was invoked, in trace
order. -/
def handlerPaths (tr : List Event) : List String :=
  tr.filterMap (fun e =>
    match e with
    | .call (.handler _ c) => some c
    | _ => none)

/-! ## Loop combinators

Every `do_*_batch` function is a `for` loop over the keys of its control file
set.  The body of one iteration produces a list of events plus a control
outcome: fall through to the next iteration, `return` from the enclosing
function (the `if ds.returncodes["value"] != 0: return` lines), or propagate
an uncaught exception. -/

/-- Control outcome of one loop iteration. -/
inductive LoopCtl where
  | next
  | ret
  | raise (msg : String)
  deriving DecidableEq, Repr

/-- Outcome of a `try:` block body: fell through (or `continue`d), executed a
`return`, or raised an exception that the `except:` clause will see. -/
inductive TryOut where
  | next
  | ret
  | raised (msg : String)
  deriving DecidableEq, Repr

/-- Invoke a collaborator inside a `try:` block and continue with its value. -/
def step {α : Type} (c : CollabCall) (o : Outcome α)
    (k : α → List Event × TryOut) : List Event × TryOut :=
  match o with
  | .exn m => ([Event.call c], .raised m)
  | .ok a =>
    let r := k a
    (Event.call c :: r.1, r.2)

/-- Prefix some log events to the rest of a `try:` block body. -/
def emit (ev : List Event) (r : List Event × TryOut) : List Event × TryOut :=
  (ev ++ r.1, r.2)

/-- Finish a `try:` block body normally after some final log events. -/
def tdone (ev : List Event) : List Event × TryOut := (ev, .next)

/-- Sequence two `try:`-block fragments (used for the trailing
`do_batch_fingerprints` call). -/
def seqTry (r : List Event × TryOut) (k : List Event × TryOut) :
    List Event × TryOut :=
  match r with
  | (ev, .next) => (ev ++ k.1, k.2)
  | other => other

/-- Invoke a collaborator outside any `try:` block (an exception propagates
out of the loop and the function). -/
def stepL {α : Type} (c : CollabCall) (o : Outcome α)
    (k : α → List Event × LoopCtl) : List Event × LoopCtl :=
  match o with
  | .exn m => ([Event.call c], .raise m)
  | .ok a =>
    let r := k a
    (Event.call c :: r.1, r.2)

/-- Prefix log events to a loop-body fragment that is outside any `try:`. -/
def emitL (ev : List Event) (r : List Event × LoopCtl) : List Event × LoopCtl :=
  (ev ++ r.1, r.2)

/-- The common `logger.info(start); try: body except Exception: log and
continue` wrapper of the per-manifest work.  A raised exception is caught,
the descriptive message and the traceback (modelled by the exception
message) are logged, and the loop continues with the next manifest. -/
def withTry (startMsg errMsg : String) (r : List Event × TryOut) :
    List Event × LoopCtl :=
  match r with
  | (ev, .next) => (Event.info startMsg :: ev, .next)
  | (ev, .ret) => (Event.info startMsg :: ev, .ret)
  | (ev, .raised m) =>
      (Event.info startMsg :: ev ++ [Event.error errMsg, Event.error m], .next)

/-- The loop shape of the runners that check the stop flag first in each
iteration (`do_L1_batch`, `do_L2_batch`, `do_L3_batch`, `do_ecostress_batch`,
`do_fluxnet_batch`, `do_reddyproc_batch`, `do_cpd_*_batch`, `do_mpt_batch`). -/
def runLoopA (ui : MainUI) (body : String → List Event × LoopCtl) :
    List String → Nat → List Event → RunResult
  | [], t, tr => ⟨tr, t, none⟩
  | i :: rest, t, tr =>
    if ui.stop_flag t then ⟨tr, t + 1, none⟩
    else
      match body i with
      | (ev, .next) => runLoopA ui body rest (t + 1) (tr ++ ev)
      | (ev, .ret) => ⟨tr ++ ev, t + 1, none⟩
      | (ev, .raise m) => ⟨tr ++ ev, t + 1, some m⟩

/-- The loop shape of the runners that first check that the control file
exists — logging an error and skipping the unit if not — and only then check
the stop flag (`do_concatenate_batch`, `do_climatology_batch`, `do_L4_batch`,
`do_L5_batch`, `do_L6_batch`). -/
def runLoopB (ui : MainUI) (isfile : String → Bool)
    (missing : String → List Event) (body : String → List Event × LoopCtl) :
    List String → Nat → List Event → RunResult
  | [], t, tr => ⟨tr, t, none⟩
  | i :: rest, t, tr =>
    if !(isfile i) then runLoopB ui isfile missing body rest t (tr ++ missing i)
    else if ui.stop_flag t then ⟨tr, t + 1, none⟩
    else
      match body i with
      | (ev, .next) => runLoopB ui isfile missing body rest (t + 1) (tr ++ ev)
      | (ev, .ret) => ⟨tr ++ ev, t + 1, none⟩
      | (ev, .raise m) => ⟨tr ++ ev, t + 1, some m⟩

/-- The `" Control file <path> not found"` error logged by the runners with a
missing-file guard. -/
def missingEv (cf : ControlFileSet) (i : String) : List Event :=
  [Event.error (" Control file " ++ lookupCF cf i ++ " not found")]

/-! ## The collaborator environment -/

/-- The opaque collaborators used by `pfp_batch`; configuration objects are
identified with `String` tokens. -/
structure Env where
  isfile : String → Bool
  get_controlfilecontents : String → Outcome String
  get_infilenamefromcf : String → Outcome String
  get_outfilenamefromcf : String → Outcome String
  netCDFRead : String → Outcome Dataset
  netCDFWrite : String → Dataset → Outcome Unit
  l1_update_controlfile : String → Outcome Bool
  l2_update_controlfile : String → Outcome Bool
  l3_update_controlfile : String → Outcome Bool
  l4_update_controlfile : String → Outcome Bool
  l5_update_controlfile : String → Outcome Bool
  l6_update_controlfile : String → Outcome Bool
  concatenate_update_controlfile : String → Outcome Bool
  climatology_update_controlfile : String → Outcome Bool
  cpd_barr_update_controlfile : String → Outcome Bool
  cpd_mchugh_update_controlfile : String → Outcome Bool
  cpd_mcnew_update_controlfile : String → Outcome Bool
  mpt_update_controlfile : String → Outcome Bool
  l1qc : String → Outcome Dataset
  l2qc : String → Dataset → Outcome Dataset
  l3qc : String → Dataset → Outcome Dataset
  l4qc : String → Dataset → Outcome Dataset
  l5qc : String → Dataset → Outcome Dataset
  l6qc : String → Dataset → Outcome Dataset
  write_csv_ecostress : String → Outcome Unit
  write_csv_fluxnet : String → Outcome Unit
  write_tsv_reddyproc : String → Outcome Unit
  parseConcatenateControlFile : String → Outcome Bool
  netCDFConcatenate : String → Outcome Unit
  climatology : String → Outcome Unit
  cpd_barr_main : String → Outcome Unit
  cpd_mchugh_main : String → Outcome Unit
  cpd_mcnew_main : String → Outcome Unit
  mpt_main : String → Outcome Unit
  hasPlots : String → Bool
  doPlots : String → Outcome Unit
  plot_fingerprint : String → Outcome Unit
  get_level : String → Outcome String   -- cfg["level"] in the site dispatcher

/-! ## Per-level loop bodies -/

/-- Path of the standard fingerprint control file used by
`do_batch_fingerprints`. -/
def fingerprintCfgPath : String := "controlfiles/standard/fingerprint.txt"

/-- `do_batch_fingerprints(cfg)`: load the standard fingerprint control file,
derive the input file name from the level's control file, and call
`pfp_plot.plot_fingerprint`.  Runs inside the caller's `try:` block, so any
exception it raises is handled by the caller's catch-and-continue. -/
def do_batch_fingerprints (env : Env) (cfg : String) : List Event × TryOut :=
  step (.getCfc fingerprintCfgPath)
      (env.get_controlfilecontents fingerprintCfgPath) fun cfg_fp =>
  step (.getOutfilename cfg) (env.get_outfilenamefromcf cfg) fun file_name =>
  emit [Event.info ("Doing fingerprint plots using " ++ basename file_name)]
    (step (.plotFingerprint cfg_fp) (env.plot_fingerprint cfg_fp) fun _ =>
      tdone [Event.info "Finished fingerprint plots"])

/-- `try:` block of one `do_L1_batch` iteration. -/
def l1TryBody (env : Env) (path base : String) : List Event × TryOut :=
  step (.getCfc path) (env.get_controlfilecontents path) fun cfg =>
  step (.compliance "L1" cfg) (env.l1_update_controlfile cfg) fun ok =>
  if !ok then tdone [] else
  step (.handler "L1" cfg) (env.l1qc cfg) fun ds1 =>
  step (.getOutfilename cfg) (env.get_outfilenamefromcf cfg) fun out =>
  step (.write out) (env.netCDFWrite out ds1) fun _ =>
  tdone [Event.info ("Finished L1 processing with " ++ base), Event.info ""]

/-- One `do_L1_batch` iteration. -/
def l1Body (env : Env) (cf : ControlFileSet) (i : String) :
    List Event × LoopCtl :=
  let path := lookupCF cf i
  let base := basename path
  withTry ("Starting L1 processing with " ++ base)
    ("Error occurred during L1 processing " ++ base)
    (l1TryBody env path base)

/-- `try:` block of one `do_L2_batch` iteration.  The `cf["Options"]`
mutation (`call_mode`/`show_plots`) is local state never observed by the
orchestrator and is not recorded.  The `Plots` figure loop is abstracted as a
single opaque collaborator call. -/
def l2TryBody (env : Env) (path base : String) : List Event × TryOut :=
  step (.getCfc path) (env.get_controlfilecontents path) fun cfg =>
  step (.compliance "L2" cfg) (env.l2_update_controlfile cfg) fun ok =>
  if !ok then tdone [] else
  step (.getInfilename cfg) (env.get_infilenamefromcf cfg) fun infn =>
  step (.read infn) (env.netCDFRead infn) fun ds1 =>
  if ds1.returncode != 0 then ([], .ret) else
  step (.handler "L2" cfg) (env.l2qc cfg ds1) fun ds2 =>
  step (.getOutfilename cfg) (env.get_outfilenamefromcf cfg) fun out =>
  step (.write out) (env.netCDFWrite out ds2) fun _ =>
  emit [Event.info ("Finished L2 processing with " ++ base)]
    (if env.hasPlots cfg then
      emit [Event.info "Plotting L1 and L2 data"]
        (step (.plots cfg) (env.doPlots cfg) fun _ =>
          tdone [Event.info "Finished plotting L1 and L2 data", Event.info ""])
    else tdone [Event.info ""])

/-- One `do_L2_batch` iteration. -/
def l2Body (env : Env) (cf : ControlFileSet) (i : String) :
    List Event × LoopCtl :=
  let path := lookupCF cf i
  let base := basename path
  withTry ("Starting L2 processing with " ++ base)
    ("Error occurred during L2 processing " ++ base)
    (l2TryBody env path base)

/-- `try:` block of one `do_L3_batch` iteration. -/
def l3TryBody (env : Env) (path base : String) : List Event × TryOut :=
  step (.getCfc path) (env.get_controlfilecontents path) fun cfg =>
  step (.compliance "L3" cfg) (env.l3_update_controlfile cfg) fun ok =>
  if !ok then tdone [] else
  step (.getInfilename cfg) (env.get_infilenamefromcf cfg) fun infn =>
  step (.read infn) (env.netCDFRead infn) fun ds2 =>
  if ds2.returncode != 0 then ([], .ret) else
  step (.handler "L3" cfg) (env.l3qc cfg ds2) fun ds3 =>
  step (.getOutfilename cfg) (env.get_outfilenamefromcf cfg) fun out =>
  step (.write out) (env.netCDFWrite out ds3) fun _ =>
  emit [Event.info ("Finished L3 processing with " ++ base)]
    (if env.hasPlots cfg then
      emit [Event.info "Plotting L3 data"]
        (step (.plots cfg) (env.doPlots cfg) fun _ =>
          tdone [Event.info "Finished plotting L3 data", Event.info ""])
    else tdone [Event.info ""])

/-- One `do_L3_batch` iteration. -/
def l3Body (env : Env) (cf : ControlFileSet) (i : String) :
    List Event × LoopCtl :=
  let path := lookupCF cf i
  let base := basename path
  withTry ("Starting L3 processing with " ++ base)
    ("Error occurred during L3 processing " ++ base)
    (l3TryBody env path base)

/-- `try:` block of one `do_ecostress_batch` iteration: note there is no
compliance-update call before the handler. -/
def ecostressTryBody (env : Env) (path base : String) : List Event × TryOut :=
  step (.getCfc path) (env.get_controlfilecontents path) fun cfg =>
  step (.handler "ecostress" cfg) (env.write_csv_ecostress cfg) fun _ =>
  tdone [Event.info ("Finished ECOSTRESS output with " ++ base), Event.info ""]

/-- One `do_ecostress_batch` iteration. -/
def ecostressBody (env : Env) (cf : ControlFileSet) (i : String) :
    List Event × LoopCtl :=
  let path := lookupCF cf i
  let base := basename path
  withTry ("Starting ECOSTRESS output with " ++ base)
    ("Error occurred during ECOSTRESS output with " ++ base)
    (ecostressTryBody env path base)

/-- One `do_fluxnet_batch` iteration: there is no `try:` block, so an
exception raised by the manifest loader or the handler propagates out of the
loop and out of `do_fluxnet_batch`. -/
def fluxnetBody (env : Env) (cf : ControlFileSet) (i : String) :
    List Event × LoopCtl :=
  let path := lookupCF cf i
  let base := basename path
  emitL [Event.info ("Starting FluxNet output with " ++ base)]
    (stepL (.getCfc path) (env.get_controlfilecontents path) fun cfg =>
      stepL (.handler "fluxnet" cfg) (env.write_csv_fluxnet cfg) fun _ =>
        ([Event.info ("Finished FluxNet output with " ++ base), Event.info ""],
          .next))

/-- One `do_reddyproc_batch` iteration: like `do_fluxnet_batch`, no `try:`. -/
def reddyprocBody (env : Env) (cf : ControlFileSet) (i : String) :
    List Event × LoopCtl :=
  let path := lookupCF cf i
  let base := basename path
  emitL [Event.info ("Starting REddyProc output with " ++ base)]
    (stepL (.getCfc path) (env.get_controlfilecontents path) fun cfg =>
      stepL (.handler "reddyproc" cfg) (env.write_tsv_reddyproc cfg) fun _ =>
        ([Event.info ("Finished REddyProc output with " ++ base), Event.info ""],
          .next))

/-- `try:` block of one `do_concatenate_batch` iteration. -/
def concatTryBody (env : Env) (path base : String) : List Event × TryOut :=
  step (.getCfc path) (env.get_controlfilecontents path) fun cfg =>
  step (.compliance "concatenate" cfg)
      (env.concatenate_update_controlfile cfg) fun ok =>
  if !ok then tdone [] else
  step (.parseConcat cfg) (env.parseConcatenateControlFile cfg) fun infoOK =>
  if !infoOK then
    tdone [Event.error (" Error occurred parsing the control file " ++ base)]
  else
  step (.handler "concatenate" cfg) (env.netCDFConcatenate cfg) fun _ =>
  emit [Event.info ("Finished concatenation with " ++ base)]
    (seqTry (do_batch_fingerprints env cfg) (tdone [Event.info ""]))

/-- One `do_concatenate_batch` iteration (after the missing-file and stop-flag
checks handled by `runLoopB`). -/
def concatBody (env : Env) (cf : ControlFileSet) (i : String) :
    List Event × LoopCtl :=
  let path := lookupCF cf i
  let base := basename path
  withTry ("Starting concatenation with " ++ base)
    ("Error occurred during concatenation with " ++ base)
    (concatTryBody env path base)

/-- `try:` block of one `do_climatology_batch` iteration. -/
def climatologyTryBody (env : Env) (path base : String) : List Event × TryOut :=
  step (.getCfc path) (env.get_controlfilecontents path) fun cfg =>
  step (.compliance "climatology" cfg)
      (env.climatology_update_controlfile cfg) fun ok =>
  if !ok then tdone [] else
  step (.handler "climatology" cfg) (env.climatology cfg) fun _ =>
  tdone [Event.info ("Finished climatology with " ++ base), Event.info ""]

/-- One `do_climatology_batch` iteration. -/
def climatologyBody (env : Env) (cf : ControlFileSet) (i : String) :
    List Event × LoopCtl :=
  let path := lookupCF cf i
  let base := basename path
  withTry ("Starting climatology with " ++ base)
    ("Error occurred during climatology with " ++ base)
    (climatologyTryBody env path base)

/-- `try:` block of one `do_cpd_barr_batch` iteration. -/
def cpdBarrTryBody (env : Env) (path base : String) : List Event × TryOut :=
  step (.getCfc path) (env.get_controlfilecontents path) fun cfg =>
  step (.compliance "cpd_barr" cfg)
      (env.cpd_barr_update_controlfile cfg) fun ok =>
  if !ok then tdone [] else
  step (.handler "cpd_barr" cfg) (env.cpd_barr_main cfg) fun _ =>
  tdone [Event.info ("Finished CPD (Barr) with " ++ base), Event.info ""]

/-- One `do_cpd_barr_batch` iteration. -/
def cpdBarrBody (env : Env) (cf : ControlFileSet) (i : String) :
    List Event × LoopCtl :=
  let path := lookupCF cf i
  let base := basename path
  withTry ("Starting CPD (Barr) with " ++ base)
    ("Error occurred during CPD (Barr) with " ++ base)
    (cpdBarrTryBody env path base)

/-- `try:` block of one `do_cpd_mchugh_batch` iteration. -/
def cpdMchughTryBody (env : Env) (path base : String) : List Event × TryOut :=
  step (.getCfc path) (env.get_controlfilecontents path) fun cfg =>
  step (.compliance "cpd_mchugh" cfg)
      (env.cpd_mchugh_update_controlfile cfg) fun ok =>
  if !ok then tdone [] else
  step (.handler "cpd_mchugh" cfg) (env.cpd_mchugh_main cfg) fun _ =>
  tdone [Event.info ("Finished CPD (McHugh) with " ++ base), Event.info ""]

/-- One `do_cpd_mchugh_batch` iteration. -/
def cpdMchughBody (env : Env) (cf : ControlFileSet) (i : String) :
    List Event × LoopCtl :=
  let path := lookupCF cf i
  let base := basename path
  withTry ("Starting CPD (McHugh) with " ++ base)
    ("Error occurred during CPD (McHugh) with " ++ base)
    (cpdMchughTryBody env path base)

/-- `try:` block of one `do_cpd_mcnew_batch` iteration. -/
def cpdMcnewTryBody (env : Env) (path base : String) : List Event × TryOut :=
  step (.getCfc path) (env.get_controlfilecontents path) fun cfg =>
  step (.compliance "cpd_mcnew" cfg)
      (env.cpd_mcnew_update_controlfile cfg) fun ok =>
  if !ok then tdone [] else
  step (.handler "cpd_mcnew" cfg) (env.cpd_mcnew_main cfg) fun _ =>
  tdone [Event.info ("Finished CPD (McNew) with " ++ base), Event.info ""]

/-- One `do_cpd_mcnew_batch` iteration. -/
def cpdMcnewBody (env : Env) (cf : ControlFileSet) (i : String) :
    List Event × LoopCtl :=
  let path := lookupCF cf i
  let base := basename path
  withTry ("Starting CPD (McNew) with " ++ base)
    ("Error occurred during CPD (McNew) with " ++ base)
    (cpdMcnewTryBody env path base)

/-- `try:` block of one `do_mpt_batch` iteration. -/
def mptTryBody (env : Env) (path base : String) : List Event × TryOut :=
  step (.getCfc path) (env.get_controlfilecontents path) fun cfg =>
  step (.compliance "mpt" cfg) (env.mpt_update_controlfile cfg) fun ok =>
  if !ok then tdone [] else
  step (.handler "mpt" cfg) (env.mpt_main cfg) fun _ =>
  tdone [Event.info ("Finished MPT with " ++ base), Event.info ""]

/-- One `do_mpt_batch` iteration. -/
def mptBody (env : Env) (cf : ControlFileSet) (i : String) :
    List Event × LoopCtl :=
  let path := lookupCF cf i
  let base := basename path
  withTry ("Starting MPT with " ++ base)
    ("Error occurred during MPT with " ++ base)
    (mptTryBody env path base)

/-- `try:` block of one `do_L4_batch` iteration. -/
def l4TryBody (env : Env) (path base : String) : List Event × TryOut :=
  step (.getCfc path) (env.get_controlfilecontents path) fun cfg =>
  step (.compliance "L4" cfg) (env.l4_update_controlfile cfg) fun ok =>
  if !ok then tdone [] else
  step (.getInfilename cfg) (env.get_infilenamefromcf cfg) fun infn =>
  step (.read infn) (env.netCDFRead infn) fun ds3 =>
  if ds3.returncode != 0 then ([], .ret) else
  step (.handler "L4" cfg) (env.l4qc cfg ds3) fun ds4 =>
  step (.getOutfilename cfg) (env.get_outfilenamefromcf cfg) fun out =>
  step (.write out) (env.netCDFWrite out ds4) fun _ =>
  emit [Event.info ("Finished L4 processing with " ++ base)]
    (seqTry (do_batch_fingerprints env cfg) (tdone [Event.info ""]))

/-- One `do_L4_batch` iteration. -/
def l4Body (env : Env) (cf : ControlFileSet) (i : String) :
    List Event × LoopCtl :=
  let path := lookupCF cf i
  let base := basename path
  withTry ("Starting L4 processing with " ++ base)
    ("Error occurred during L4 with " ++ base)
    (l4TryBody env path base)

/-- `try:` block of one `do_L5_batch` iteration. -/
def l5TryBody (env : Env) (path base : String) : List Event × TryOut :=
  step (.getCfc path) (env.get_controlfilecontents path) fun cfg =>
  step (.compliance "L5" cfg) (env.l5_update_controlfile cfg) fun ok =>
  if !ok then tdone [] else
  step (.getInfilename cfg) (env.get_infilenamefromcf cfg) fun infn =>
  step (.read infn) (env.netCDFRead infn) fun ds4 =>
  if ds4.returncode != 0 then ([], .ret) else
  step (.handler "L5" cfg) (env.l5qc cfg ds4) fun ds5 =>
  step (.getOutfilename cfg) (env.get_outfilenamefromcf cfg) fun out =>
  step (.write out) (env.netCDFWrite out ds5) fun _ =>
  emit [Event.info ("Finished L5 processing with " ++ base)]
    (seqTry (do_batch_fingerprints env cfg) (tdone [Event.info ""]))

/-- One `do_L5_batch` iteration. -/
def l5Body (env : Env) (cf : ControlFileSet) (i : String) :
    List Event × LoopCtl :=
  let path := lookupCF cf i
  let base := basename path
  withTry ("Starting L5 processing with " ++ base)
    ("Error occurred during L5 with " ++ base)
    (l5TryBody env path base)

/-- `try:` block of one `do_L6_batch` iteration (no fingerprint step). -/
def l6TryBody (env : Env) (path base : String) : List Event × TryOut :=
  step (.getCfc path) (env.get_controlfilecontents path) fun cfg =>
  step (.compliance "L6" cfg) (env.l6_update_controlfile cfg) fun ok =>
  if !ok then tdone [] else
  step (.getInfilename cfg) (env.get_infilenamefromcf cfg) fun infn =>
  step (.read infn) (env.netCDFRead infn) fun ds5 =>
  if ds5.returncode != 0 then ([], .ret) else
  step (.handler "L6" cfg) (env.l6qc cfg ds5) fun ds6 =>
  step (.getOutfilename cfg) (env.get_outfilenamefromcf cfg) fun out =>
  step (.write out) (env.netCDFWrite out ds6) fun _ =>
  tdone [Event.info ("Finished L6 processing with " ++ base), Event.info ""]

/-- One `do_L6_batch` iteration. -/
def l6Body (env : Env) (cf : ControlFileSet) (i : String) :
    List Event × LoopCtl :=
  let path := lookupCF cf i
  let base := basename path
  withTry ("Starting L6 processing with " ++ base)
    ("Error occurred during L6 with " ++ base)
    (l6TryBody env path base)

/-! ## The fifteen `do_*_batch` runners -/

def do_L1_batch_go (ui : MainUI) (env : Env) (cf : ControlFileSet)
    (t : Nat) (tr : List Event) : RunResult :=
  runLoopA ui (l1Body env cf) (cf.map Prod.fst) t tr

def do_L1_batch (ui : MainUI) (env : Env) (cf : ControlFileSet) : RunResult :=
  do_L1_batch_go ui env cf 0 []

def do_L2_batch_go (ui : MainUI) (env : Env) (cf : ControlFileSet)
    (t : Nat) (tr : List Event) : RunResult :=
  runLoopA ui (l2Body env cf) (cf.map Prod.fst) t tr

def do_L2_batch (ui : MainUI) (env : Env) (cf : ControlFileSet) : RunResult :=
  do_L2_batch_go ui env cf 0 []

def do_L3_batch_go (ui : MainUI) (env : Env) (cf : ControlFileSet)
    (t : Nat) (tr : List Event) : RunResult :=
  runLoopA ui (l3Body env cf) (cf.map Prod.fst) t tr

def do_L3_batch (ui : MainUI) (env : Env) (cf : ControlFileSet) : RunResult :=
  do_L3_batch_go ui env cf 0 []

def do_ecostress_batch_go (ui : MainUI) (env : Env) (cf : ControlFileSet)
    (t : Nat) (tr : List Event) : RunResult :=
  runLoopA ui (ecostressBody env cf) (cf.map Prod.fst) t tr

def do_ecostress_batch (ui : MainUI) (env : Env) (cf : ControlFileSet) :
    RunResult :=
  do_ecostress_batch_go ui env cf 0 []

def do_fluxnet_batch_go (ui : MainUI) (env : Env) (cf : ControlFileSet)
    (t : Nat) (tr : List Event) : RunResult :=
  runLoopA ui (fluxnetBody env cf) (cf.map Prod.fst) t tr

def do_fluxnet_batch (ui : MainUI) (env : Env) (cf : ControlFileSet) :
    RunResult :=
  do_fluxnet_batch_go ui env cf 0 []

def do_reddyproc_batch_go (ui : MainUI) (env : Env) (cf : ControlFileSet)
    (t : Nat) (tr : List Event) : RunResult :=
  runLoopA ui (reddyprocBody env cf) (cf.map Prod.fst) t tr

def do_reddyproc_batch (ui : MainUI) (env : Env) (cf : ControlFileSet) :
    RunResult :=
  do_reddyproc_batch_go ui env cf 0 []

def do_concatenate_batch_go (ui : MainUI) (env : Env) (cf : ControlFileSet)
    (t : Nat) (tr : List Event) : RunResult :=
  runLoopB ui (fun i => env.isfile (lookupCF cf i)) (missingEv cf)
    (concatBody env cf) (sortNumeric (cf.map Prod.fst)) t tr

def do_concatenate_batch (ui : MainUI) (env : Env) (cf : ControlFileSet) :
    RunResult :=
  do_concatenate_batch_go ui env cf 0 []

def do_climatology_batch_go (ui : MainUI) (env : Env) (cf : ControlFileSet)
    (t : Nat) (tr : List Event) : RunResult :=
  runLoopB ui (fun i => env.isfile (lookupCF cf i)) (missingEv cf)
    (climatologyBody env cf) (cf.map Prod.fst) t tr

def do_climatology_batch (ui : MainUI) (env : Env) (cf : ControlFileSet) :
    RunResult :=
  do_climatology_batch_go ui env cf 0 []

def do_cpd_barr_batch_go (ui : MainUI) (env : Env) (cf : ControlFileSet)
    (t : Nat) (tr : List Event) : RunResult :=
  runLoopA ui (cpdBarrBody env cf) (cf.map Prod.fst) t tr

def do_cpd_barr_batch (ui : MainUI) (env : Env) (cf : ControlFileSet) :
    RunResult :=
  do_cpd_barr_batch_go ui env cf 0 []

def do_cpd_mchugh_batch_go (ui : MainUI) (env : Env) (cf : ControlFileSet)
    (t : Nat) (tr : List Event) : RunResult :=
  runLoopA ui (cpdMchughBody env cf) (cf.map Prod.fst) t tr

def do_cpd_mchugh_batch (ui : MainUI) (env : Env) (cf : ControlFileSet) :
    RunResult :=
  do_cpd_mchugh_batch_go ui env cf 0 []

def do_cpd_mcnew_batch_go (ui : MainUI) (env : Env) (cf : ControlFileSet)
    (t : Nat) (tr : List Event) : RunResult :=
  runLoopA ui (cpdMcnewBody env cf) (cf.map Prod.fst) t tr

def do_cpd_mcnew_batch (ui : MainUI) (env : Env) (cf : ControlFileSet) :
    RunResult :=
  do_cpd_mcnew_batch_go ui env cf 0 []

def do_mpt_batch_go (ui : MainUI) (env : Env) (cf : ControlFileSet)
    (t : Nat) (tr : List Event) : RunResult :=
  runLoopA ui (mptBody env cf) (cf.map Prod.fst) t tr

def do_mpt_batch (ui : MainUI) (env : Env) (cf : ControlFileSet) : RunResult :=
  do_mpt_batch_go ui env cf 0 []

def do_L4_batch_go (ui : MainUI) (env : Env) (cf : ControlFileSet)
    (t : Nat) (tr : List Event) : RunResult :=
  runLoopB ui (fun i => env.isfile (lookupCF cf i)) (missingEv cf)
    (l4Body env cf) (sortNumeric (cf.map Prod.fst)) t tr

def do_L4_batch (ui : MainUI) (env : Env) (cf : ControlFileSet) : RunResult :=
  do_L4_batch_go ui env cf 0 []

def do_L5_batch_go (ui : MainUI) (env : Env) (cf : ControlFileSet)
    (t : Nat) (tr : List Event) : RunResult :=
  runLoopB ui (fun i => env.isfile (lookupCF cf i)) (missingEv cf)
    (l5Body env cf) (sortNumeric (cf.map Prod.fst)) t tr

def do_L5_batch (ui : MainUI) (env : Env) (cf : ControlFileSet) : RunResult :=
  do_L5_batch_go ui env cf 0 []

def do_L6_batch_go (ui : MainUI) (env : Env) (cf : ControlFileSet)
    (t : Nat) (tr : List Event) : RunResult :=
  runLoopB ui (fun i => env.isfile (lookupCF cf i)) (missingEv cf)
    (l6Body env cf) (cf.map Prod.fst) t tr

def do_L6_batch (ui : MainUI) (env : Env) (cf : ControlFileSet) : RunResult :=
  do_L6_batch_go ui env cf 0 []

/-! ## `do_levels_batch`: the level orchestrator -/

/-- The closed set of recognized processing levels (`processing_levels` in
`do_levels_batch`). -/
def processing_levels : List String :=
  ["l1", "l2", "l3",
   "ecostress", "fluxnet", "reddyproc",
   "concatenate", "climatology",
   "cpd_barr", "cpd_mchugh", "cpd_mcnew", "mpt",
   "l4", "l5", "l6"]

/-- `level.lower() in processing_levels`: membership in the known level set,
decided on the lowercased identifier. -/
def recognizedLevel (level : String) : Bool :=
  processing_levels.contains (strLower level)

/-- The batch control file as seen by `do_levels_batch`: the parsed
`[Options] levels` entry (`none` when the entry or the `[Options]` section is
absent, in which case the orchestrator logs and exits) and the `[Levels]`
sections. -/
structure BatchCfg where
  options_levels : Option (List String)
  levelSets : String → ControlFileSet

/-- The `elif` chain of `do_levels_batch` dispatching one recognized level
identifier to its runner (indexing `cf_batch["Levels"]` by the original,
non-lowercased identifier, as the source does). -/
def levelDispatch (ui : MainUI) (env : Env) (LS : String → ControlFileSet)
    (level : String) (t : Nat) (tr : List Event) : RunResult :=
  if strLower level == "l1" then do_L1_batch_go ui env (LS level) t tr
  else if strLower level == "l2" then
    do_L2_batch_go ui env (LS level) t tr
  else if strLower level == "l3" then
    do_L3_batch_go ui env (LS level) t tr
  else if strLower level == "ecostress" then
    do_ecostress_batch_go ui env (LS level) t tr
  else if strLower level == "fluxnet" then
    do_fluxnet_batch_go ui env (LS level) t tr
  else if strLower level == "reddyproc" then
    do_reddyproc_batch_go ui env (LS level) t tr
  else if strLower level == "concatenate" then
    do_concatenate_batch_go ui env (LS level) t tr
  else if strLower level == "climatology" then
    do_climatology_batch_go ui env (LS level) t tr
  else if strLower level == "cpd_barr" then
    do_cpd_barr_batch_go ui env (LS level) t tr
  else if strLower level == "cpd_mchugh" then
    do_cpd_mchugh_batch_go ui env (LS level) t tr
  else if strLower level == "cpd_mcnew" then
    do_cpd_mcnew_batch_go ui env (LS level) t tr
  else if strLower level == "mpt" then
    do_mpt_batch_go ui env (LS level) t tr
  else if strLower level == "l4" then
    do_L4_batch_go ui env (LS level) t tr
  else if strLower level == "l5" then
    do_L5_batch_go ui env (LS level) t tr
  else if strLower level == "l6" then
    do_L6_batch_go ui env (LS level) t tr
  else ⟨tr, t, none⟩

/-- The `for level in levels` loop of `do_levels_batch`: check the stop flag,
warn and skip unrecognized identifiers, dispatch recognized ones.  An
exception escaping a runner (possible only for `do_fluxnet_batch` /
`do_reddyproc_batch`, which have no `try:`) propagates, since
`do_levels_batch` has no handler around the dispatch. -/
def do_levels_batch_go (ui : MainUI) (env : Env)
    (LS : String → ControlFileSet) :
    List String → Nat → List Event → RunResult
  | [], t, tr => ⟨tr, t, none⟩
  | level :: rest, t, tr =>
    if ui.stop_flag t then ⟨tr, t + 1, none⟩
    else if !(recognizedLevel level) then
      do_levels_batch_go ui env LS rest (t + 1)
        (tr ++ [Event.warn ("Unrecognised level " ++ level)])
    else
      let r := levelDispatch ui env LS level (t + 1) tr
      match r.exn with
      | some m => ⟨r.trace, r.reads, some m⟩
      | none => do_levels_batch_go ui env LS rest r.reads r.trace

/-- `do_levels_batch` in batch mode (the interactive-mode preamble and the
start/end timestamp log lines precede/follow the loop and carry no
orchestration behaviour; a missing `[Options]`/`levels` entry logs an error
and calls `sys.exit()`, modelled as a propagated `SystemExit`). -/
def do_levels_batch (ui : MainUI) (env : Env) (B : BatchCfg) : RunResult :=
  match B.options_levels with
  | none =>
      ⟨[Event.error "No 'levels' entry found in [Options] section"], 0,
        some "SystemExit"⟩
  | some levels => do_levels_batch_go ui env B.levelSets levels 0 []

/-! ## `do_sites_batch`: the parallel per-site dispatcher -/

/-- One worker of the site pool (`do_sites_batch_dispatcher`): iterate the
site's entries in ascending numeric key order; for each entry load the
control file (outside any `try:`), read its `"level"` entry, and run the
matching per-level runner on the single-entry control file set
`{n: cfg_site[n]}`.  Unrecognised levels are logged as an error and the
entry is skipped. -/
def siteDispatch (item : MainUI) (env : Env) (level : String)
    (cf_level : ControlFileSet) (t : Nat) (tr : List Event) : RunResult :=
  if strLower level == "l1" then do_L1_batch_go item env cf_level t tr
  else if strLower level == "l2" then do_L2_batch_go item env cf_level t tr
  else if strLower level == "l3" then do_L3_batch_go item env cf_level t tr
  else if strLower level == "concatenate" then
    do_concatenate_batch_go item env cf_level t tr
  else if strLower level == "climatology" then
    do_climatology_batch_go item env cf_level t tr
  else if strLower level == "cpd_barr" then
    do_cpd_barr_batch_go item env cf_level t tr
  else if strLower level == "cpd_mchugh" then
    do_cpd_mchugh_batch_go item env cf_level t tr
  else if strLower level == "cpd_mcnew" then
    do_cpd_mcnew_batch_go item env cf_level t tr
  else if strLower level == "mpt" then do_mpt_batch_go item env cf_level t tr
  else if strLower level == "l4" then do_L4_batch_go item env cf_level t tr
  else if strLower level == "l5" then do_L5_batch_go item env cf_level t tr
  else if strLower level == "l6" then do_L6_batch_go item env cf_level t tr
  else
    ⟨tr ++ [Event.error (" Unrecognised batch processing level " ++ level)],
      t, none⟩

/-- The `for n in sorted(...)` loop of `do_sites_batch_dispatcher`.  The
`get_controlfilecontents` call and the `cfg["level"]` access are outside any
`try:` block: an exception there propagates out of the worker. -/
def do_sites_batch_dispatcher_go (item : MainUI) (env : Env)
    (cfg_site : ControlFileSet) : List String → Nat → List Event → RunResult
  | [], t, tr => ⟨tr, t, none⟩
  | n :: rest, t, tr =>
    let cfg_name := lookupCF cfg_site n
    match env.get_controlfilecontents cfg_name with
    | .exn m => ⟨tr ++ [Event.call (.getCfc cfg_name)], t, some m⟩
    | .ok cfg =>
      match env.get_level cfg with
      | .exn m => ⟨tr ++ [Event.call (.getCfc cfg_name)], t, some m⟩
      | .ok level =>
        let r := siteDispatch item env level [(n, lookupCF cfg_site n)] t
          (tr ++ [Event.call (.getCfc cfg_name)])
        match r.exn with
        | some m => ⟨r.trace, r.reads, some m⟩
        | none => do_sites_batch_dispatcher_go item env cfg_site rest
            r.reads r.trace

/-- `do_sites_batch_dispatcher(item)`: the full per-site worker. -/
def do_sites_batch_dispatcher (item : MainUI) (env : Env)
    (cfg_site : ControlFileSet) : RunResult :=
  do_sites_batch_dispatcher_go item env cfg_site
    (sortNumeric (cfg_site.map Prod.fst)) 0 []

/-- The `Bunch(stop_flag=False, cfg=main_ui.cfg, mode="batch", site=site)`
object built for each site's worker: its stop flag is the constant `False`,
regardless of the state of the session's own flag. -/
def mkBunch (_site : String) : MainUI := ⟨fun _ => false⟩

/-- The worker pool size: `Pool(5)` in `do_sites_batch`, a literal constant
independent of the number of sites. -/
def sitesPoolSize : Nat := 5

/-- Result of `Pool.map` over the per-site workers. -/
structure SitesResult where
  results : List RunResult
  exn : Option String
  deriving Repr

/-- Model of `multiprocessing.Pool(P).map(f, xs)`: every submitted task is
executed to completion by the pool regardless of failures in other tasks
(the pool does not cancel outstanding tasks when one raises); after all
tasks finish, `map` re-raises the stored worker exception if any worker
raised.  (CPython stores the first failure to arrive; this determinization
stores the first failure in task-submission order — which exception is
chosen does not affect whether `map` raises.)  The pool size `P` bounds
concurrency but does not affect which tasks run or their results. -/
def poolMap (_P : Nat) {α : Type} (f : α → RunResult) (xs : List α) :
    SitesResult :=
  let rs := xs.map f
  { results := rs,
    exn := ((rs.filter (fun r => r.exn.isSome)).head?).bind RunResult.exn }

/-- The batch session as seen by `do_sites_batch`: the externally settable
stop flag and the `[Sites]` sections of the batch control file. -/
structure SessionUI where
  stop_flag : Nat → Bool
  sites : List (String × ControlFileSet)

/-- `do_sites_batch(main_ui)`: build one `Bunch` per site (each with its own
`stop_flag=False`) and map the dispatcher over them with a pool of
`sitesPoolSize` workers.  The session's own stop flag is never consulted. -/
def do_sites_batch (ui : SessionUI) (env : Env) : SitesResult :=
  let cfs := ui.sites.map (fun s => (mkBunch s.1, s.2))
  poolMap sitesPoolSize (fun p => do_sites_batch_dispatcher p.1 env p.2) cfs

/-! ## Timing model of the bounded worker pool

`poolMap` captures the functional behaviour of `Pool(P).map`; the schedule
below captures its timing: `P` workers, each picking up the next queued task
as soon as it is free.  Task `i` has duration `durs[i]`; a worker's free time
advances by the duration of each task it executes; each task is assigned to
the worker that is free earliest (ties to the first such worker). -/

/-- A scheduled task: the worker that executes it, its start instant and its
duration. -/
structure Job where
  worker : Nat
  start : Nat
  dur : Nat
  deriving DecidableEq, Repr

/-- The minimum of a list of worker free times (`0` for an empty pool). -/
def minFree : List Nat → Nat
  | [] => 0
  | [a] => a
  | a :: b :: l => min a (minFree (b :: l))

/-- Index of the first occurrence of `v`. -/
def firstIdx (v : Nat) : List Nat → Nat
  | [] => 0
  | a :: l => if a = v then 0 else firstIdx v l + 1

/-- Greedy bounded-pool schedule: `fts` is the list of worker free times. -/
def poolScheduleGo (fts : List Nat) : List Nat → List Job
  | [] => []
  | d :: ds =>
    let s := minFree fts
    let w := firstIdx s fts
    ⟨w, s, d⟩ :: poolScheduleGo (fts.set w (s + d)) ds

/-- Schedule of `Pool(P).map` over tasks with the given durations. -/
def poolSchedule (P : Nat) (durs : List Nat) : List Job :=
  poolScheduleGo (List.replicate P 0) durs

/-- Task `j` is in progress at instant `T`. -/
def activeAt (T : Nat) (j : Job) : Bool :=
  decide (j.start ≤ T ∧ T < j.start + j.dur)

/-! ## Concrete collaborator environments (for witnesses and counterexamples) -/

/-- An environment where every collaborator call succeeds: files exist, the
loader returns the path as the configuration token, compliance updates
accept, reads return status 0, handlers and writers succeed, no plots are
declared. -/
def baseEnv : Env where
  isfile := fun _ => true
  get_controlfilecontents := fun p => .ok p
  get_infilenamefromcf := fun c => .ok c
  get_outfilenamefromcf := fun c => .ok c
  netCDFRead := fun _ => .ok ⟨0⟩
  netCDFWrite := fun _ _ => .ok ()
  l1_update_controlfile := fun _ => .ok true
  l2_update_controlfile := fun _ => .ok true
  l3_update_controlfile := fun _ => .ok true
  l4_update_controlfile := fun _ => .ok true
  l5_update_controlfile := fun _ => .ok true
  l6_update_controlfile := fun _ => .ok true
  concatenate_update_controlfile := fun _ => .ok true
  climatology_update_controlfile := fun _ => .ok true
  cpd_barr_update_controlfile := fun _ => .ok true
  cpd_mchugh_update_controlfile := fun _ => .ok true
  cpd_mcnew_update_controlfile := fun _ => .ok true
  mpt_update_controlfile := fun _ => .ok true
  l1qc := fun _ => .ok ⟨0⟩
  l2qc := fun _ _ => .ok ⟨0⟩
  l3qc := fun _ _ => .ok ⟨0⟩
  l4qc := fun _ _ => .ok ⟨0⟩
  l5qc := fun _ _ => .ok ⟨0⟩
  l6qc := fun _ _ => .ok ⟨0⟩
  write_csv_ecostress := fun _ => .ok ()
  write_csv_fluxnet := fun _ => .ok ()
  write_tsv_reddyproc := fun _ => .ok ()
  parseConcatenateControlFile := fun _ => .ok true
  netCDFConcatenate := fun _ => .ok ()
  climatology := fun _ => .ok ()
  cpd_barr_main := fun _ => .ok ()
  cpd_mchugh_main := fun _ => .ok ()
  cpd_mcnew_main := fun _ => .ok ()
  mpt_main := fun _ => .ok ()
  hasPlots := fun _ => false
  doPlots := fun _ => .ok ()
  plot_fingerprint := fun _ => .ok ()
  get_level := fun _ => .ok "l1"

/-! ## Generic lemmas about the loop shapes -/

theorem handlerPaths_append (a b : List Event) :
    handlerPaths (a ++ b) = handlerPaths a ++ handlerPaths b :=
  List.filterMap_append ..

@[simp]
theorem noStop_flag (t : Nat) : noStop.stop_flag t = false := rfl

/-- The catch-all `except Exception:` wrapper never lets an exception
propagate: the control outcome of a wrapped body is never `raise`. -/
theorem withTry_ctl (s e : String) (r : List Event × TryOut) (m : String) :
    (withTry s e r).2 ≠ LoopCtl.raise m := by
  rcases r with ⟨ev, _ | _ | m'⟩ <;> simp [withTry]

/-- If no iteration body can raise, the loop returns normally. -/
theorem runLoopA_exn_none (ui : MainUI) (body : String → List Event × LoopCtl)
    (h : ∀ i m, (body i).2 ≠ LoopCtl.raise m) :
    ∀ ks t tr, (runLoopA ui body ks t tr).exn = none := by
  intro ks
  induction ks with
  | nil => intro t tr; simp [runLoopA]
  | cons k rest ih =>
    intro t tr
    rw [runLoopA]
    split
    · rfl
    · rcases hb : body k with ⟨ev, ctl⟩
      cases ctl with
      | next => exact ih _ _
      | ret => rfl
      | raise m => exact absurd (by rw [hb]) (h k m)

/-- If no iteration body can raise, the guarded loop returns normally. -/
theorem runLoopB_exn_none (ui : MainUI) (isf : String → Bool)
    (mis : String → List Event) (body : String → List Event × LoopCtl)
    (h : ∀ i m, (body i).2 ≠ LoopCtl.raise m) :
    ∀ ks t tr, (runLoopB ui isf mis body ks t tr).exn = none := by
  intro ks
  induction ks with
  | nil => intro t tr; simp [runLoopB]
  | cons k rest ih =>
    intro t tr
    rw [runLoopB]
    split
    · exact ih _ _
    · split
      · rfl
      · rcases hb : body k with ⟨ev, ctl⟩
        cases ctl with
        | next => exact ih _ _
        | ret => rfl
        | raise m => exact absurd (by rw [hb]) (h k m)

/-- A stop flag that reads true at its very first read halts an unguarded
loop before any iteration body runs. -/
theorem runLoopA_stop0 (ui : MainUI) (body : String → List Event × LoopCtl)
    (ks : List String) (tr : List Event) (h : ui.stop_flag 0 = true) :
    (runLoopA ui body ks 0 tr).trace = tr := by
  cases ks <;> simp [runLoopA, h]

/-- A stop flag that reads true at its very first read lets a guarded loop
log missing files but never run an iteration body, so no handler is ever
invoked. -/
theorem runLoopB_stop0 (ui : MainUI) (isf : String → Bool)
    (mis : String → List Event) (body : String → List Event × LoopCtl)
    (h : ui.stop_flag 0 = true) (hm : ∀ k, handlerPaths (mis k) = []) :
    ∀ ks tr,
      handlerPaths (runLoopB ui isf mis body ks 0 tr).trace = handlerPaths tr := by
  intro ks
  induction ks with
  | nil => intro tr; simp [runLoopB]
  | cons k rest ih =>
    intro tr
    rw [runLoopB]
    by_cases hk : isf k
    · simp [hk, h]
    · simp only [hk, Bool.not_false, if_pos]
      rw [ih, handlerPaths_append, hm]
      simp

/-- With an unset stop flag, an unguarded loop only appends to the incoming
trace, advances the read counter by a fixed amount, and produces an outcome
independent of the counter's initial value. -/
theorem runLoopA_shape (body : String → List Event × LoopCtl)
    (ks : List String) :
    ∃ E c x, ∀ t tr, runLoopA noStop body ks t tr = ⟨tr ++ E, t + c, x⟩ := by
  induction ks with
  | nil => exact ⟨[], 0, none, fun t tr => by simp [runLoopA]⟩
  | cons k rest ih =>
    rcases hb : body k with ⟨ev, ctl⟩
    cases ctl with
    | next =>
      obtain ⟨E, c, x, hE⟩ := ih
      refine ⟨ev ++ E, c + 1, x, fun t tr => ?_⟩
      rw [runLoopA]
      simp only [noStop_flag, Bool.false_eq_true, if_false, hb]
      rw [hE]
      simp only [List.append_assoc, RunResult.mk.injEq, and_true, true_and]
      omega
    | ret =>
      exact ⟨ev, 1, none, fun t tr => by
        rw [runLoopA]; simp [hb]⟩
    | raise m =>
      exact ⟨ev, 1, some m, fun t tr => by
        rw [runLoopA]; simp [hb]⟩

/-- With an unset stop flag, a guarded loop only appends to the incoming
trace, advances the read counter by a fixed amount, and produces an outcome
independent of the counter's initial value. -/
theorem runLoopB_shape (isf : String → Bool) (mis : String → List Event)
    (body : String → List Event × LoopCtl) (ks : List String) :
    ∃ E c x, ∀ t tr,
      runLoopB noStop isf mis body ks t tr = ⟨tr ++ E, t + c, x⟩ := by
  induction ks with
  | nil => exact ⟨[], 0, none, fun t tr => by simp [runLoopB]⟩
  | cons k rest ih =>
    by_cases hk : isf k
    · rcases hb : body k with ⟨ev, ctl⟩
      cases ctl with
      | next =>
        obtain ⟨E, c, x, hE⟩ := ih
        refine ⟨ev ++ E, c + 1, x, fun t tr => ?_⟩
        rw [runLoopB]
        simp only [hk, Bool.not_true, Bool.false_eq_true, if_false, noStop_flag,
          hb]
        rw [hE]
        simp only [List.append_assoc, RunResult.mk.injEq, and_true, true_and]
        omega
      | ret =>
        exact ⟨ev, 1, none, fun t tr => by
          rw [runLoopB]; simp [hk, hb]⟩
      | raise m =>
        exact ⟨ev, 1, some m, fun t tr => by
          rw [runLoopB]; simp [hk, hb]⟩
    · obtain ⟨E, c, x, hE⟩ := ih
      refine ⟨mis k ++ E, c, x, fun t tr => ?_⟩
      rw [runLoopB]
      simp only [hk, Bool.not_false, if_pos]
      rw [hE]
      simp [List.append_assoc]

/-- The prefix of an iteration-key list that a guarded loop reaches within
`j` reads of the stop flag: keys whose file is missing are logged without a
flag read; the `j`-th read (0-based `j`) is the one that observes the set
flag and breaks. -/
def takeReadsB (isf : String → Bool) : Nat → List String → List String
  | _, [] => []
  | j, k :: ks =>
    if !(isf k) then k :: takeReadsB isf j ks
    else
      match j with
      | 0 => []
      | j' + 1 => k :: takeReadsB isf j' ks

@[simp]
theorem takeReadsB_nil (isf : String → Bool) (j : Nat) :
    takeReadsB isf j [] = [] := rfl

theorem takeReadsB_cons_missing (isf : String → Bool) (j : Nat) (k : String)
    (ks : List String) (h : isf k = false) :
    takeReadsB isf j (k :: ks) = k :: takeReadsB isf j ks := by
  rw [takeReadsB.eq_def]
  simp [h]

theorem takeReadsB_cons_zero (isf : String → Bool) (k : String)
    (ks : List String) (h : isf k = true) :
    takeReadsB isf 0 (k :: ks) = [] := by
  rw [takeReadsB.eq_def]
  simp [h]

theorem takeReadsB_cons_succ (isf : String → Bool) (j : Nat) (k : String)
    (ks : List String) (h : isf k = true) :
    takeReadsB isf (j + 1) (k :: ks) = k :: takeReadsB isf j ks := by
  rw [takeReadsB.eq_def]
  simp [h]

/-- Under a stop flag that turns (and stays) set at read index `j`, an
unguarded loop behaves exactly like the never-stopped loop on the first
`j - t` keys. -/
theorem runLoopA_flag_take (ui : MainUI) (body : String → List Event × LoopCtl)
    (j : Nat) (hj : ∀ t, ui.stop_flag t = decide (j ≤ t)) :
    ∀ ks t tr, traceExn (runLoopA ui body ks t tr) =
      traceExn (runLoopA noStop body (ks.take (j - t)) t tr) := by
  intro ks
  induction ks with
  | nil => intro t tr; simp [runLoopA]
  | cons k rest ih =>
    intro t tr
    by_cases ht : j ≤ t
    · have h0 : j - t = 0 := Nat.sub_eq_zero_of_le ht
      rw [h0]
      rw [runLoopA, hj t]
      simp only [List.take_zero]
      simp [ht, runLoopA, traceExn]
    · have h1 : j - t = (j - (t + 1)) + 1 := by omega
      rw [h1, List.take_succ_cons]
      rw [runLoopA, hj t]
      have hflag : decide (j ≤ t) = false := by simp [ht]
      rw [hflag]
      conv_rhs => rw [runLoopA]
      simp only [noStop_flag, Bool.false_eq_true, if_false]
      rcases hb : body k with ⟨ev, ctl⟩
      cases ctl with
      | next => exact ih (t + 1) (tr ++ ev)
      | ret => rfl
      | raise m => rfl

/-- Under a stop flag that turns (and stays) set at read index `j`, a guarded
loop behaves exactly like the never-stopped loop on the `takeReadsB`-prefix
of its keys: the break happens at the first existing-file key after the
flag is set; missing-file keys reached before that are still logged. -/
theorem runLoopB_flag_take (ui : MainUI) (isf : String → Bool)
    (mis : String → List Event) (body : String → List Event × LoopCtl)
    (j : Nat) (hj : ∀ t, ui.stop_flag t = decide (j ≤ t)) :
    ∀ ks t tr, traceExn (runLoopB ui isf mis body ks t tr) =
      traceExn (runLoopB noStop isf mis body (takeReadsB isf (j - t) ks) t tr) := by
  intro ks
  induction ks with
  | nil => intro t tr; simp [runLoopB, takeReadsB]
  | cons k rest ih =>
    intro t tr
    by_cases hk : isf k
    · by_cases ht : j ≤ t
      · have h0 : j - t = 0 := Nat.sub_eq_zero_of_le ht
        rw [h0, takeReadsB_cons_zero isf k rest hk]
        conv_lhs => rw [runLoopB]
        rw [hj t]
        simp [hk, ht, runLoopB, traceExn]
      · have h1 : j - t = (j - (t + 1)) + 1 := by omega
        rw [h1, takeReadsB_cons_succ isf (j - (t + 1)) k rest hk]
        rw [runLoopB, hj t]
        have hflag : decide (j ≤ t) = false := by simp [ht]
        rw [hflag]
        conv_rhs => rw [runLoopB]
        simp only [hk, Bool.not_true, Bool.false_eq_true, if_false, noStop_flag]
        rcases hb : body k with ⟨ev, ctl⟩
        cases ctl with
        | next => exact ih (t + 1) (tr ++ ev)
        | ret => rfl
        | raise m => rfl
    · have hkf : isf k = false := by simpa using hk
      rw [takeReadsB_cons_missing isf (j - t) k rest hkf]
      conv_lhs => rw [runLoopB]
      conv_rhs => rw [runLoopB]
      simp only [hkf, Bool.not_false, if_pos]
      exact ih t (tr ++ mis k)

/-- Events produced by a run of consecutive fall-through iterations of an
unguarded loop. -/
def bodyEvts (body : String → List Event × LoopCtl) (ks : List String) :
    List Event :=
  (ks.map (fun k => (body k).1)).flatten

/-- Events produced by a run of consecutive fall-through or missing-file
iterations of a guarded loop. -/
def bodyEvtsB (isf : String → Bool) (mis : String → List Event)
    (body : String → List Event × LoopCtl) (ks : List String) : List Event :=
  (ks.map (fun k => if isf k then (body k).1 else mis k)).flatten

/-- An unguarded never-stopped loop runs through a prefix of fall-through
iterations and continues with the remaining keys. -/
theorem runLoopA_append_next (body : String → List Event × LoopCtl)
    (ks₁ ks₂ : List String) (h : ∀ k ∈ ks₁, (body k).2 = LoopCtl.next) :
    ∀ t tr, runLoopA noStop body (ks₁ ++ ks₂) t tr =
      runLoopA noStop body ks₂ (t + ks₁.length) (tr ++ bodyEvts body ks₁) := by
  induction ks₁ with
  | nil => intro t tr; simp [bodyEvts]
  | cons k rest ih =>
    intro t tr
    have hk := h k (by simp)
    rcases hb : body k with ⟨ev, ctl⟩
    rw [hb] at hk
    simp only at hk
    subst hk
    rw [List.cons_append, runLoopA]
    simp only [noStop_flag, Bool.false_eq_true, if_false, hb]
    rw [ih (fun k' hk' => h k' (by simp [hk']))]
    simp only [bodyEvts, List.map_cons, List.flatten_cons, List.length_cons, hb]
    rw [List.append_assoc]
    congr 1
    omega

/-- A guarded never-stopped loop runs through a prefix of fall-through or
missing-file iterations and continues with the remaining keys; only
existing-file iterations read the stop flag. -/
theorem runLoopB_append_next (isf : String → Bool) (mis : String → List Event)
    (body : String → List Event × LoopCtl) (ks₁ ks₂ : List String)
    (h : ∀ k ∈ ks₁, isf k = false ∨ (body k).2 = LoopCtl.next) :
    ∀ t tr, runLoopB noStop isf mis body (ks₁ ++ ks₂) t tr =
      runLoopB noStop isf mis body ks₂ (t + ks₁.countP (fun k => isf k))
        (tr ++ bodyEvtsB isf mis body ks₁) := by
  induction ks₁ with
  | nil => intro t tr; simp [bodyEvtsB]
  | cons k rest ih =>
    intro t tr
    by_cases hk : isf k
    · have hnext : (body k).2 = LoopCtl.next := by
        rcases h k (by simp) with hc | hc
        · rw [hk] at hc; cases hc
        · exact hc
      rcases hb : body k with ⟨ev, ctl⟩
      rw [hb] at hnext
      simp only at hnext
      subst hnext
      rw [List.cons_append, runLoopB]
      simp only [hk, Bool.not_true, Bool.false_eq_true, if_false, noStop_flag,
        hb]
      rw [ih (fun k' hk' => h k' (by simp [hk']))]
      simp only [bodyEvtsB, List.map_cons, List.flatten_cons, hk, if_pos, hb]
      rw [List.append_assoc]
      congr 1
      rw [List.countP_cons]
      simp [hk]
      omega
    · rw [List.cons_append, runLoopB]
      simp only [hk, Bool.not_false, if_pos]
      rw [ih (fun k' hk' => h k' (by simp [hk']))]
      simp only [bodyEvtsB, List.map_cons, List.flatten_cons, hk,
        Bool.false_eq_true, if_false]
      rw [List.append_assoc]
      rw [List.countP_cons]
      simp [hk]

/-- An iteration whose body executes `return` ends the unguarded loop there:
the remaining keys produce no events, no log lines, and the function returns
normally. -/
theorem runLoopA_ret_head (ui : MainUI) (body : String → List Event × LoopCtl)
    (k : String) (rest : List String) (t : Nat) (tr : List Event)
    (hf : ui.stop_flag t = false) (h : (body k).2 = LoopCtl.ret) :
    runLoopA ui body (k :: rest) t tr = ⟨tr ++ (body k).1, t + 1, none⟩ := by
  rcases hb : body k with ⟨ev, ctl⟩
  rw [hb] at h
  simp only at h
  subst h
  rw [runLoopA]
  simp [hf, hb]

/-- An iteration whose body executes `return` ends the guarded loop there. -/
theorem runLoopB_ret_head (ui : MainUI) (isf : String → Bool)
    (mis : String → List Event) (body : String → List Event × LoopCtl)
    (k : String) (rest : List String) (t : Nat) (tr : List Event)
    (hk : isf k = true) (hf : ui.stop_flag t = false)
    (h : (body k).2 = LoopCtl.ret) :
    runLoopB ui isf mis body (k :: rest) t tr =
      ⟨tr ++ (body k).1, t + 1, none⟩ := by
  rcases hb : body k with ⟨ev, ctl⟩
  rw [hb] at h
  simp only at h
  subst h
  rw [runLoopB]
  simp [hk, hf, hb]

/-! ## Facts about the numeric key ordering -/

instance : IsTotal String (fun a b => keyInt a ≤ keyInt b) :=
  ⟨fun x y => le_total (keyInt x) (keyInt y)⟩

instance : IsTrans String (fun a b => keyInt a ≤ keyInt b) :=
  ⟨fun _ _ _ hab hbc => le_trans hab hbc⟩

theorem sortNumeric_perm (ks : List String) : (sortNumeric ks).Perm ks :=
  List.perm_insertionSort _ _

theorem sortNumeric_sorted (ks : List String) :
    List.Sorted (fun a b => keyInt a ≤ keyInt b) (sortNumeric ks) :=
  List.sorted_insertionSort _ _

/-! ## Facts about the pool schedule -/

theorem minFree_le : ∀ l : List Nat, ∀ x ∈ l, minFree l ≤ x
  | [] => by intro x hx; cases hx
  | [a] => by simp [minFree]
  | a :: b :: l => by
    intro x hx
    rw [minFree]
    rcases List.mem_cons.mp hx with rfl | hx'
    · exact min_le_left _ _
    · exact le_trans (min_le_right _ _) (minFree_le (b :: l) x hx')

theorem minFree_mem : ∀ l : List Nat, l ≠ [] → minFree l ∈ l
  | [], h => absurd rfl h
  | [a], _ => by simp [minFree]
  | a :: b :: l, _ => by
    rw [minFree]
    rcases le_total a (minFree (b :: l)) with h | h
    · simp [min_eq_left h]
    · have := minFree_mem (b :: l) (by simp)
      rw [min_eq_right h]
      exact List.mem_cons_of_mem a this

theorem firstIdx_lt (v : Nat) : ∀ l : List Nat, v ∈ l → firstIdx v l < l.length := by
  intro l
  induction l with
  | nil => intro h; cases h
  | cons a l ih =>
    intro h
    by_cases ha : a = v
    · simp [firstIdx, ha]
    · have hv : v ∈ l := by
        rcases List.mem_cons.mp h with rfl | h'
        · exact absurd rfl ha
        · exact h'
      simp only [firstIdx, ha, if_false, List.length_cons]
      exact Nat.succ_lt_succ (ih hv)

theorem getD_firstIdx (v : Nat) : ∀ l : List Nat, v ∈ l →
    l.getD (firstIdx v l) 0 = v := by
  intro l
  induction l with
  | nil => intro h; cases h
  | cons a l ih =>
    intro h
    by_cases ha : a = v
    · simp [firstIdx, ha]
    · have hv : v ∈ l := by
        rcases List.mem_cons.mp h with rfl | h'
        · exact absurd rfl ha
        · exact h'
      simp only [firstIdx, ha, if_false, List.getD_cons_succ]
      exact ih hv

theorem getD_set_self : ∀ (l : List Nat) (w v : Nat), w < l.length →
    (l.set w v).getD w 0 = v := by
  intro l
  induction l with
  | nil => intro w v h; simp at h
  | cons a l ih =>
    intro w v h
    cases w with
    | zero => simp
    | succ w' =>
      simp only [List.set_cons_succ, List.getD_cons_succ]
      exact ih w' v (by simpa using h)

theorem getD_set_mono : ∀ (l : List Nat) (w v i : Nat), l.getD w 0 ≤ v →
    l.getD i 0 ≤ (l.set w v).getD i 0 := by
  intro l
  induction l with
  | nil => intro w v i _; simp
  | cons a l ih =>
    intro w v i h
    cases w with
    | zero =>
      cases i with
      | zero => simpa using h
      | succ i' => simp [List.getD_cons_succ]
    | succ w' =>
      cases i with
      | zero => simp
      | succ i' =>
        simp only [List.set_cons_succ, List.getD_cons_succ]
        exact ih w' v i' (by simpa using h)

theorem poolScheduleGo_length : ∀ (ds fts : List Nat),
    (poolScheduleGo fts ds).length = ds.length := by
  intro ds
  induction ds with
  | nil => intro fts; simp [poolScheduleGo]
  | cons d ds ih => intro fts; simp [poolScheduleGo, ih]

theorem poolScheduleGo_worker_lt : ∀ (ds fts : List Nat), 0 < fts.length →
    ∀ j ∈ poolScheduleGo fts ds, j.worker < fts.length := by
  intro ds
  induction ds with
  | nil => intro fts _ j hj; simp [poolScheduleGo] at hj
  | cons d ds ih =>
    intro fts h j hj
    rw [poolScheduleGo] at hj
    rcases List.mem_cons.mp hj with rfl | hj'
    · exact firstIdx_lt _ _ (minFree_mem fts (List.length_pos.mp h))
    · have := ih (fts.set (firstIdx (minFree fts) fts) (minFree fts + d))
        (by simpa using h) j hj'
      simpa using this

theorem poolScheduleGo_start_le : ∀ (ds fts : List Nat), 0 < fts.length →
    ∀ j ∈ poolScheduleGo fts ds, fts.getD j.worker 0 ≤ j.start := by
  intro ds
  induction ds with
  | nil => intro fts _ j hj; simp [poolScheduleGo] at hj
  | cons d ds ih =>
    intro fts h j hj
    rw [poolScheduleGo] at hj
    rcases List.mem_cons.mp hj with rfl | hj'
    · exact le_of_eq (getD_firstIdx _ _ (minFree_mem fts (List.length_pos.mp h)))
    · have h2 := ih (fts.set (firstIdx (minFree fts) fts) (minFree fts + d))
        (by simpa using h) j hj'
      refine le_trans (getD_set_mono fts _ _ j.worker ?_) h2
      rw [getD_firstIdx _ _ (minFree_mem fts (List.length_pos.mp h))]
      exact Nat.le_add_right _ _

theorem poolScheduleGo_chain : ∀ (ds fts : List Nat), 0 < fts.length →
    List.Pairwise (fun a b => a.worker = b.worker → a.start + a.dur ≤ b.start)
      (poolScheduleGo fts ds) := by
  intro ds
  induction ds with
  | nil => intro fts _; simp [poolScheduleGo]
  | cons d ds ih =>
    intro fts h
    rw [poolScheduleGo]
    refine List.Pairwise.cons ?_ (ih _ (by simpa using h))
    intro j hj hw
    have h2 := poolScheduleGo_start_le ds
      (fts.set (firstIdx (minFree fts) fts) (minFree fts + d))
      (by simpa using h) j hj
    simp only at hw
    rw [← hw] at h2
    rwa [getD_set_self fts _ _
      (firstIdx_lt _ _ (minFree_mem fts (List.length_pos.mp h)))] at h2

/-- At most `P` tasks of the pool schedule are in progress at any instant. -/
theorem poolSchedule_bounded (P : Nat) (hP : 0 < P) (durs : List Nat)
    (T : Nat) : (poolSchedule P durs).countP (activeAt T) ≤ P := by
  have hchain := poolScheduleGo_chain durs (List.replicate P 0) (by simpa using hP)
  have hlt := poolScheduleGo_worker_lt durs (List.replicate P 0)
    (by simpa using hP)
  simp only [List.length_replicate] at hlt
  rw [List.countP_eq_length_filter]
  have hne : List.Pairwise (fun a b => a.worker ≠ b.worker)
      ((poolSchedule P durs).filter (activeAt T)) := by
    refine (hchain.filter (activeAt T)).imp_of_mem ?_
    intro a b ha hb hr heq
    have hA := List.of_mem_filter ha
    have hB := List.of_mem_filter hb
    simp only [activeAt, decide_eq_true_eq] at hA hB
    have := hr heq
    omega
  have hnodup : (((poolSchedule P durs).filter (activeAt T)).map Job.worker).Nodup :=
    List.pairwise_map.mpr hne
  have hsub : (((poolSchedule P durs).filter (activeAt T)).map Job.worker).toFinset
      ⊆ Finset.range P := by
    intro x hx
    rw [List.mem_toFinset] at hx
    obtain ⟨j, hj, rfl⟩ := List.mem_map.mp hx
    rw [Finset.mem_range]
    exact hlt j (List.mem_of_mem_filter hj)
  calc ((poolSchedule P durs).filter (activeAt T)).length
      = (((poolSchedule P durs).filter (activeAt T)).map Job.worker).length := by
        rw [List.length_map]
    _ = (((poolSchedule P durs).filter (activeAt T)).map Job.worker).toFinset.card :=
        (List.toFinset_card_of_nodup hnodup).symm
    _ ≤ (Finset.range P).card := Finset.card_le_card hsub
    _ = P := Finset.card_range P

/-- Every submitted task is scheduled. -/
theorem poolSchedule_length (P : Nat) (durs : List Nat) :
    (poolSchedule P durs).length = durs.length :=
  poolScheduleGo_length durs _

/-- The stored `Pool.map` exception is `none` exactly when no worker raised. -/
theorem poolExn_none_iff (rs : List RunResult) :
    ((rs.filter (fun r => r.exn.isSome)).head?).bind RunResult.exn = none ↔
      ∀ r ∈ rs, r.exn = none := by
  rcases h : (rs.filter (fun r => r.exn.isSome)).head? with _ | r0
  · rw [h]
    rw [List.head?_eq_none_iff, List.filter_eq_nil_iff] at h
    constructor
    · intro _ r hr
      have h2 := h r hr
      simpa [Option.isSome_iff_ne_none] using h2
    · intro _
      rfl
  · have hmem : r0 ∈ rs.filter (fun r => r.exn.isSome) :=
      List.mem_of_mem_head? (by rw [h]; rfl)
    have hsome : r0.exn.isSome := by
      have h2 := List.mem_filter.mp hmem
      simpa using h2.2
    have hr0 : r0 ∈ rs := List.mem_of_mem_filter hmem
    rw [h]
    refine iff_of_false ?_ ?_
    · intro hb
      have h3 : r0.exn = none := hb
      rw [h3] at hsome
      exact absurd hsome (by simp)
    · intro hall
      have h3 := hall r0 hr0
      rw [h3] at hsome
      exact absurd hsome (by simp)

/-! ## Claim C1 -/

/-- **C1, counterexample.**  The claim says every `do_*_batch` function
catches per-manifest errors and always returns normally; but
`do_fluxnet_batch` has no `try:` block, so an exception raised by
`pfp_io.write_csv_fluxnet` on the single manifest `"1" ↦ "a.txt"` propagates
out of `do_fluxnet_batch` instead of being caught and logged. -/
theorem claim_C1_counterexample :
    (do_fluxnet_batch noStop
        { baseEnv with write_csv_fluxnet := fun _ => .exn "IOError" }
        [("1", "a.txt")]).exn = some "IOError" := by
  rfl

/-- **C1 (amended).**  The catch-log-continue behaviour holds for the
thirteen runners that wrap the per-manifest work in `try/except` (all except
`do_fluxnet_batch` and `do_reddyproc_batch`): a raised exception is caught,
the descriptive message and the traceback are logged, and the loop continues
with the next manifest (first conjunct); consequently each of those thirteen
runners returns normally on every session, environment and control file set
(remaining conjuncts). -/
theorem claim_C1_amended :
    (∀ s e ev m, withTry s e (ev, TryOut.raised m) =
        (Event.info s :: ev ++ [Event.error e, Event.error m], LoopCtl.next))
    ∧ (∀ ui env cf, (do_L1_batch ui env cf).exn = none)
    ∧ (∀ ui env cf, (do_L2_batch ui env cf).exn = none)
    ∧ (∀ ui env cf, (do_L3_batch ui env cf).exn = none)
    ∧ (∀ ui env cf, (do_ecostress_batch ui env cf).exn = none)
    ∧ (∀ ui env cf, (do_concatenate_batch ui env cf).exn = none)
    ∧ (∀ ui env cf, (do_climatology_batch ui env cf).exn = none)
    ∧ (∀ ui env cf, (do_cpd_barr_batch ui env cf).exn = none)
    ∧ (∀ ui env cf, (do_cpd_mchugh_batch ui env cf).exn = none)
    ∧ (∀ ui env cf, (do_cpd_mcnew_batch ui env cf).exn = none)
    ∧ (∀ ui env cf, (do_mpt_batch ui env cf).exn = none)
    ∧ (∀ ui env cf, (do_L4_batch ui env cf).exn = none)
    ∧ (∀ ui env cf, (do_L5_batch ui env cf).exn = none)
    ∧ (∀ ui env cf, (do_L6_batch ui env cf).exn = none) := by
  refine ⟨fun s e ev m => rfl, ?_, ?_, ?_, ?_, ?_, ?_, ?_, ?_, ?_, ?_, ?_, ?_, ?_⟩
  · exact fun ui env cf =>
      runLoopA_exn_none ui _ (fun i m => withTry_ctl _ _ _ m) _ _ _
  · exact fun ui env cf =>
      runLoopA_exn_none ui _ (fun i m => withTry_ctl _ _ _ m) _ _ _
  · exact fun ui env cf =>
      runLoopA_exn_none ui _ (fun i m => withTry_ctl _ _ _ m) _ _ _
  · exact fun ui env cf =>
      runLoopA_exn_none ui _ (fun i m => withTry_ctl _ _ _ m) _ _ _
  · exact fun ui env cf =>
      runLoopB_exn_none ui _ _ _ (fun i m => withTry_ctl _ _ _ m) _ _ _
  · exact fun ui env cf =>
      runLoopB_exn_none ui _ _ _ (fun i m => withTry_ctl _ _ _ m) _ _ _
  · exact fun ui env cf =>
      runLoopA_exn_none ui _ (fun i m => withTry_ctl _ _ _ m) _ _ _
  · exact fun ui env cf =>
      runLoopA_exn_none ui _ (fun i m => withTry_ctl _ _ _ m) _ _ _
  · exact fun ui env cf =>
      runLoopA_exn_none ui _ (fun i m => withTry_ctl _ _ _ m) _ _ _
  · exact fun ui env cf =>
      runLoopA_exn_none ui _ (fun i m => withTry_ctl _ _ _ m) _ _ _
  · exact fun ui env cf =>
      runLoopB_exn_none ui _ _ _ (fun i m => withTry_ctl _ _ _ m) _ _ _
  · exact fun ui env cf =>
      runLoopB_exn_none ui _ _ _ (fun i m => withTry_ctl _ _ _ m) _ _ _
  · exact fun ui env cf =>
      runLoopB_exn_none ui _ _ _ (fun i m => withTry_ctl _ _ _ m) _ _ _

/-! ## Claim C2 -/

/-- **C2, counterexample.**  The claim says the overall dispatch call
`do_sites_batch` returns normally regardless of per-site errors.  With two
sites where site `S2`'s manifest loader raises (`get_controlfilecontents` is
called outside any `try:` in `do_sites_batch_dispatcher`), both workers run
to completion (two results) but `Pool.map` re-raises the worker's exception,
so `do_sites_batch` does not return normally. -/
theorem claim_C2_counterexample :
    (do_sites_batch
        ⟨fun _ => false, [("S1", [("1", "c1")]), ("S2", [("1", "s2cf")])]⟩
        { baseEnv with get_controlfilecontents :=
            fun p => if p == "s2cf" then .exn "IOError" else .ok p }).exn
        = some "IOError"
    ∧ (do_sites_batch
        ⟨fun _ => false, [("S1", [("1", "c1")]), ("S2", [("1", "s2cf")])]⟩
        { baseEnv with get_controlfilecontents :=
            fun p => if p == "s2cf" then .exn "IOError" else .ok p }).results.length
        = 2 := by
  exact ⟨rfl, rfl⟩

/-- **C2 (amended).**  In the pool model every submitted site's worker is
executed to completion regardless of failures in other workers: the result
list is exactly the dispatcher applied to every site in submission order, so
the number of sites processed equals the number submitted — one site's
unhandled error does not prevent the others from completing.  However,
`do_sites_batch` returns normally if and only if no worker raised
(`Pool.map` re-raises a stored worker exception after all tasks finish). -/
theorem claim_C2_amended (flag : Nat → Bool)
    (sites : List (String × ControlFileSet)) (env : Env) :
    (do_sites_batch ⟨flag, sites⟩ env).results
        = sites.map (fun s => do_sites_batch_dispatcher (mkBunch s.1) env s.2)
    ∧ (do_sites_batch ⟨flag, sites⟩ env).results.length = sites.length
    ∧ ((do_sites_batch ⟨flag, sites⟩ env).exn = none ↔
        ∀ r ∈ (do_sites_batch ⟨flag, sites⟩ env).results, r.exn = none) := by
  refine ⟨?_, ?_, ?_⟩
  · simp [do_sites_batch, poolMap, List.map_map]
  · simp [do_sites_batch, poolMap]
  · exact poolExn_none_iff _

/-! ## Claim C5 -/

/-- **C5, counterexample.**  The claim says a set cancellation flag stops
dispatch at the next not-yet-scheduled site.  With the session flag constantly
set *before any site is started*, both sites are nevertheless dispatched and
both pipelines run to completion (each site's handler is invoked), because
`do_sites_batch` never reads the session flag and builds each worker's
`Bunch` with `stop_flag=False`. -/
theorem claim_C5_counterexample :
    (do_sites_batch
        ⟨fun _ => true, [("S1", [("1", "c1")]), ("S2", [("1", "c2")])]⟩
        baseEnv).results.map (fun r => handlerPaths r.trace)
      = [["c1"], ["c2"]] := by
  rfl

/-- **C5 (amended).**  The per-site fan-out ignores the session's
cancellation flag entirely: `do_sites_batch` is independent of the flag (each
worker's `Bunch` is constructed with its own `stop_flag=False`), and every
declared site is dispatched, whatever the flag does. -/
theorem claim_C5_amended (f g : Nat → Bool)
    (sites : List (String × ControlFileSet)) (env : Env) :
    do_sites_batch ⟨f, sites⟩ env = do_sites_batch ⟨g, sites⟩ env
    ∧ (do_sites_batch ⟨f, sites⟩ env).results.length = sites.length := by
  refine ⟨rfl, ?_⟩
  simp [do_sites_batch, poolMap]

/-! ## Claim C10 -/

/-- **C10.**  The worker pool of the parallel site dispatcher is constructed
with the constant size `5` (`Pool(5)`), independent of the number of sites
(first two conjuncts); in the pool's timing model at most `5` tasks are in
progress at any sampled instant (third conjunct); every submitted task is
eventually scheduled — excess sites wait for a free worker slot rather than
being dropped (fourth conjunct); and every declared site is dispatched by
`do_sites_batch` (fifth conjunct). -/
theorem claim_C10 :
    sitesPoolSize = 5
    ∧ (∀ ui env, do_sites_batch ui env =
        poolMap sitesPoolSize (fun p => do_sites_batch_dispatcher p.1 env p.2)
          (ui.sites.map (fun s => (mkBunch s.1, s.2))))
    ∧ (∀ durs T, (poolSchedule sitesPoolSize durs).countP (activeAt T)
        ≤ sitesPoolSize)
    ∧ (∀ durs, (poolSchedule sitesPoolSize durs).length = durs.length)
    ∧ (∀ ui env, (do_sites_batch ui env).results.length = ui.sites.length) := by
  refine ⟨rfl, fun ui env => rfl, ?_, ?_, ?_⟩
  · exact fun durs T => poolSchedule_bounded 5 (by norm_num) durs T
  · exact fun durs => poolSchedule_length 5 durs
  · intro ui env
    simp [do_sites_batch, poolMap]

/-! ## Claim C3 -/

/-- One `do_concatenate_batch` iteration under the all-succeeding environment
invokes the concatenation handler exactly once, on the manifest looked up for
its key, and falls through to the next iteration. -/
theorem concatBody_base (cf : ControlFileSet) (i : String) :
    handlerPaths (concatBody baseEnv cf i).1 = [lookupCF cf i]
    ∧ (concatBody baseEnv cf i).2 = LoopCtl.next :=
  ⟨rfl, rfl⟩

/-- One `do_L4_batch` iteration under the all-succeeding environment. -/
theorem l4Body_base (cf : ControlFileSet) (i : String) :
    handlerPaths (l4Body baseEnv cf i).1 = [lookupCF cf i]
    ∧ (l4Body baseEnv cf i).2 = LoopCtl.next :=
  ⟨rfl, rfl⟩

/-- One `do_L5_batch` iteration under the all-succeeding environment. -/
theorem l5Body_base (cf : ControlFileSet) (i : String) :
    handlerPaths (l5Body baseEnv cf i).1 = [lookupCF cf i]
    ∧ (l5Body baseEnv cf i).2 = LoopCtl.next :=
  ⟨rfl, rfl⟩

/-- A guarded loop whose files all exist and whose every iteration invokes
its handler once and falls through processes its keys in the given order. -/
theorem runLoopB_handlers_all_ok (isf : String → Bool)
    (mis : String → List Event) (body : String → List Event × LoopCtl)
    (f : String → String) (hisf : ∀ k, isf k = true)
    (hb : ∀ k, handlerPaths (body k).1 = [f k] ∧ (body k).2 = LoopCtl.next) :
    ∀ ks t tr, handlerPaths (runLoopB noStop isf mis body ks t tr).trace
      = handlerPaths tr ++ ks.map f := by
  intro ks
  induction ks with
  | nil => intro t tr; simp [runLoopB]
  | cons k rest ih =>
    intro t tr
    rw [runLoopB]
    simp only [hisf k, Bool.not_true, Bool.false_eq_true, if_false, noStop_flag]
    rcases hbody : body k with ⟨ev, ctl⟩
    have h1 := (hb k).1
    have h2 := (hb k).2
    rw [hbody] at h1 h2
    simp only at h2
    subst h2
    rw [ih]
    rw [handlerPaths_append]
    simp only at h1
    rw [h1]
    simp

/-- Writing different orderings of a key set with pairwise-distinct numeric
values always yields the same numerically sorted processing order. -/
theorem sortNumeric_order_independent (ks ks' : List String)
    (hperm : ks.Perm ks')
    (hinj : List.Pairwise (fun a b => keyInt a ≠ keyInt b) ks) :
    sortNumeric ks = sortNumeric ks' := by
  have hsymm : ∀ {x y : String}, keyInt x ≠ keyInt y → keyInt y ≠ keyInt x :=
    fun h => h.symm
  have h1 : List.Pairwise (fun a b => keyInt a ≠ keyInt b) (sortNumeric ks) :=
    ((sortNumeric_perm ks).pairwise_iff hsymm).mpr hinj
  have hinj' : List.Pairwise (fun a b => keyInt a ≠ keyInt b) ks' :=
    (hperm.pairwise_iff hsymm).mp hinj
  have h2 : List.Pairwise (fun a b => keyInt a ≠ keyInt b) (sortNumeric ks') :=
    ((sortNumeric_perm ks').pairwise_iff hsymm).mpr hinj'
  have hlt1 : List.Pairwise (fun a b => keyInt a < keyInt b) (sortNumeric ks) :=
    ((sortNumeric_sorted ks).and h1).imp (fun h => lt_of_le_of_ne h.1 h.2)
  have hlt2 : List.Pairwise (fun a b => keyInt a < keyInt b) (sortNumeric ks') :=
    ((sortNumeric_sorted ks').and h2).imp (fun h => lt_of_le_of_ne h.1 h.2)
  have hp : (sortNumeric ks).Perm (sortNumeric ks') :=
    ((sortNumeric_perm ks).trans hperm).trans (sortNumeric_perm ks').symm
  haveI : IsAntisymm String (fun a b => keyInt a < keyInt b) :=
    ⟨fun a b h1 h2 => absurd h2 (not_lt.mpr (le_of_lt h1))⟩
  exact List.eq_of_perm_of_sorted hp hlt1 hlt2

/-- The content of claim C3: the spec's concrete example; the processing
order of the numeric-ordered runners is a permutation of the declared keys,
sorted by numeric value; under the all-succeeding environment each of
`do_concatenate_batch`, `do_L4_batch` and `do_L5_batch` invokes its handler
on the manifests in exactly that order; and for keys with pairwise-distinct
numeric values the order is independent of the mapping's iteration order. -/
def C3Concl (cf : ControlFileSet) : Prop :=
  sortNumeric ["10", "2", "1"] = ["1", "2", "10"]
  ∧ (sortNumeric (cf.map Prod.fst)).Perm (cf.map Prod.fst)
  ∧ List.Sorted (fun a b => keyInt a ≤ keyInt b) (sortNumeric (cf.map Prod.fst))
  ∧ handlerPaths (do_concatenate_batch noStop baseEnv cf).trace
      = (sortNumeric (cf.map Prod.fst)).map (fun i => lookupCF cf i)
  ∧ handlerPaths (do_L4_batch noStop baseEnv cf).trace
      = (sortNumeric (cf.map Prod.fst)).map (fun i => lookupCF cf i)
  ∧ handlerPaths (do_L5_batch noStop baseEnv cf).trace
      = (sortNumeric (cf.map Prod.fst)).map (fun i => lookupCF cf i)
  ∧ (∀ cf' : ControlFileSet, (cf.map Prod.fst).Perm (cf'.map Prod.fst) →
      List.Pairwise (fun a b => keyInt a ≠ keyInt b) (cf.map Prod.fst) →
      sortNumeric (cf'.map Prod.fst) = sortNumeric (cf.map Prod.fst))

/-- **C3.**  For every control file set whose keys are string-encoded
integers, the numeric-ordered runners (`do_concatenate_batch`, `do_L4_batch`,
`do_L5_batch`) process manifests in ascending numeric key order, independent
of the mapping's iteration order; e.g. keys `{"10","2","1"}` are processed as
`"1","2","10"`. -/
theorem claim_C3 (cf : ControlFileSet)
    (_hnum : ∀ k ∈ cf.map Prod.fst, strIsInt k = true) : C3Concl cf := by
  refine ⟨by decide, sortNumeric_perm _, sortNumeric_sorted _, ?_, ?_, ?_, ?_⟩
  · have h := runLoopB_handlers_all_ok
      (fun i => baseEnv.isfile (lookupCF cf i)) (missingEv cf)
      (concatBody baseEnv cf) (fun i => lookupCF cf i) (fun k => rfl)
      (fun k => concatBody_base cf k) (sortNumeric (cf.map Prod.fst)) 0 []
    simpa [do_concatenate_batch, do_concatenate_batch_go, handlerPaths] using h
  · have h := runLoopB_handlers_all_ok
      (fun i => baseEnv.isfile (lookupCF cf i)) (missingEv cf)
      (l4Body baseEnv cf) (fun i => lookupCF cf i) (fun k => rfl)
      (fun k => l4Body_base cf k) (sortNumeric (cf.map Prod.fst)) 0 []
    simpa [do_L4_batch, do_L4_batch_go, handlerPaths] using h
  · have h := runLoopB_handlers_all_ok
      (fun i => baseEnv.isfile (lookupCF cf i)) (missingEv cf)
      (l5Body baseEnv cf) (fun i => lookupCF cf i) (fun k => rfl)
      (fun k => l5Body_base cf k) (sortNumeric (cf.map Prod.fst)) 0 []
    simpa [do_L5_batch, do_L5_batch_go, handlerPaths] using h
  · intro cf' hperm hinj
    exact sortNumeric_order_independent _ _ hperm.symm
      ((hperm.pairwise_iff (fun h => h.symm)).mp hinj)

/-- **C3, witness.**  The spec's own example instantiated: declaration order
`"10","2","1"`, every key numeric. -/
theorem claim_C3_witness :
    (∀ k ∈ ([("10", "c"), ("2", "b"), ("1", "a")] : ControlFileSet).map
        Prod.fst, strIsInt k = true)
    ∧ C3Concl [("10", "c"), ("2", "b"), ("1", "a")] :=
  ⟨by decide, claim_C3 [("10", "c"), ("2", "b"), ("1", "a")] (by decide)⟩

/-! ## Claim C4 -/

/-- The content of claim C4, for a stop flag that becomes (and stays) set at
its `j`-th read.  First half: if the flag is already set at the first read
(`j = 0`), no runner ever invokes a handler.  Second half: each runner's
observable behaviour equals that of the never-stopped loop on the prefix of
its iteration keys covered by `j` flag reads (`List.take j` for the runners
that check the flag first; `takeReadsB` for the guarded runners, whose
missing-file iterations do not read the flag), so the run stops right after
the last manifest completed before the flag was seen and later manifests'
handlers are never invoked. -/
def C4Concl (env : Env) (ui : MainUI) (cf : ControlFileSet) (j : Nat) : Prop :=
  (j = 0 →
      handlerPaths (do_L1_batch ui env cf).trace = []
    ∧ handlerPaths (do_L2_batch ui env cf).trace = []
    ∧ handlerPaths (do_L3_batch ui env cf).trace = []
    ∧ handlerPaths (do_ecostress_batch ui env cf).trace = []
    ∧ handlerPaths (do_fluxnet_batch ui env cf).trace = []
    ∧ handlerPaths (do_reddyproc_batch ui env cf).trace = []
    ∧ handlerPaths (do_cpd_barr_batch ui env cf).trace = []
    ∧ handlerPaths (do_cpd_mchugh_batch ui env cf).trace = []
    ∧ handlerPaths (do_cpd_mcnew_batch ui env cf).trace = []
    ∧ handlerPaths (do_mpt_batch ui env cf).trace = []
    ∧ handlerPaths (do_concatenate_batch ui env cf).trace = []
    ∧ handlerPaths (do_climatology_batch ui env cf).trace = []
    ∧ handlerPaths (do_L4_batch ui env cf).trace = []
    ∧ handlerPaths (do_L5_batch ui env cf).trace = []
    ∧ handlerPaths (do_L6_batch ui env cf).trace = [])
  ∧ traceExn (do_L1_batch ui env cf)
      = traceExn (runLoopA noStop (l1Body env cf) ((cf.map Prod.fst).take j) 0 [])
  ∧ traceExn (do_L2_batch ui env cf)
      = traceExn (runLoopA noStop (l2Body env cf) ((cf.map Prod.fst).take j) 0 [])
  ∧ traceExn (do_L3_batch ui env cf)
      = traceExn (runLoopA noStop (l3Body env cf) ((cf.map Prod.fst).take j) 0 [])
  ∧ traceExn (do_ecostress_batch ui env cf)
      = traceExn (runLoopA noStop (ecostressBody env cf)
          ((cf.map Prod.fst).take j) 0 [])
  ∧ traceExn (do_fluxnet_batch ui env cf)
      = traceExn (runLoopA noStop (fluxnetBody env cf)
          ((cf.map Prod.fst).take j) 0 [])
  ∧ traceExn (do_reddyproc_batch ui env cf)
      = traceExn (runLoopA noStop (reddyprocBody env cf)
          ((cf.map Prod.fst).take j) 0 [])
  ∧ traceExn (do_cpd_barr_batch ui env cf)
      = traceExn (runLoopA noStop (cpdBarrBody env cf)
          ((cf.map Prod.fst).take j) 0 [])
  ∧ traceExn (do_cpd_mchugh_batch ui env cf)
      = traceExn (runLoopA noStop (cpdMchughBody env cf)
          ((cf.map Prod.fst).take j) 0 [])
  ∧ traceExn (do_cpd_mcnew_batch ui env cf)
      = traceExn (runLoopA noStop (cpdMcnewBody env cf)
          ((cf.map Prod.fst).take j) 0 [])
  ∧ traceExn (do_mpt_batch ui env cf)
      = traceExn (runLoopA noStop (mptBody env cf)
          ((cf.map Prod.fst).take j) 0 [])
  ∧ traceExn (do_concatenate_batch ui env cf)
      = traceExn (runLoopB noStop (fun i => env.isfile (lookupCF cf i))
          (missingEv cf) (concatBody env cf)
          (takeReadsB (fun i => env.isfile (lookupCF cf i)) j
            (sortNumeric (cf.map Prod.fst))) 0 [])
  ∧ traceExn (do_climatology_batch ui env cf)
      = traceExn (runLoopB noStop (fun i => env.isfile (lookupCF cf i))
          (missingEv cf) (climatologyBody env cf)
          (takeReadsB (fun i => env.isfile (lookupCF cf i)) j
            (cf.map Prod.fst)) 0 [])
  ∧ traceExn (do_L4_batch ui env cf)
      = traceExn (runLoopB noStop (fun i => env.isfile (lookupCF cf i))
          (missingEv cf) (l4Body env cf)
          (takeReadsB (fun i => env.isfile (lookupCF cf i)) j
            (sortNumeric (cf.map Prod.fst))) 0 [])
  ∧ traceExn (do_L5_batch ui env cf)
      = traceExn (runLoopB noStop (fun i => env.isfile (lookupCF cf i))
          (missingEv cf) (l5Body env cf)
          (takeReadsB (fun i => env.isfile (lookupCF cf i)) j
            (sortNumeric (cf.map Prod.fst))) 0 [])
  ∧ traceExn (do_L6_batch ui env cf)
      = traceExn (runLoopB noStop (fun i => env.isfile (lookupCF cf i))
          (missingEv cf) (l6Body env cf)
          (takeReadsB (fun i => env.isfile (lookupCF cf i)) j
            (cf.map Prod.fst)) 0 [])

/-- **C4.**  For every environment, control file set and sequential level
runner, under a stop flag that becomes set at its `j`-th read: if the flag is
set before the first manifest's iteration (`j = 0`), zero manifests are
processed (no handler invocation); in general the run behaves exactly like
the never-stopped run truncated after `j` flag reads, so a flag set after
manifest `i` completes and before manifest `i+1` starts stops the run after
manifest `i` and manifest `i+1`'s handler is never invoked. -/
theorem claim_C4 (env : Env) (ui : MainUI) (cf : ControlFileSet) (j : Nat)
    (hj : ∀ t, ui.stop_flag t = decide (j ≤ t)) : C4Concl env ui cf j := by
  constructor
  · intro hj0
    subst hj0
    have hf : ui.stop_flag 0 = true := by rw [hj 0]; simp
    have hA : ∀ (body : String → List Event × LoopCtl) ks,
        handlerPaths (runLoopA ui body ks 0 []).trace = [] := by
      intro body ks
      rw [runLoopA_stop0 ui body ks [] hf]
      rfl
    have hB : ∀ (isf : String → Bool) (body : String → List Event × LoopCtl) ks,
        handlerPaths (runLoopB ui isf (missingEv cf) body ks 0 []).trace = [] := by
      intro isf body ks
      rw [runLoopB_stop0 ui isf (missingEv cf) body hf (fun k => rfl) ks []]
      rfl
    exact ⟨hA _ _, hA _ _, hA _ _, hA _ _, hA _ _, hA _ _, hA _ _, hA _ _,
      hA _ _, hA _ _, hB _ _ _, hB _ _ _, hB _ _ _, hB _ _ _, hB _ _ _⟩
  · have hA : ∀ (body : String → List Event × LoopCtl) ks,
        traceExn (runLoopA ui body ks 0 [])
          = traceExn (runLoopA noStop body (ks.take j) 0 []) := by
      intro body ks
      have h := runLoopA_flag_take ui body j hj ks 0 []
      simpa using h
    have hB : ∀ (isf : String → Bool) (body : String → List Event × LoopCtl) ks,
        traceExn (runLoopB ui isf (missingEv cf) body ks 0 [])
          = traceExn (runLoopB noStop isf (missingEv cf) body
              (takeReadsB isf j ks) 0 []) := by
      intro isf body ks
      have h := runLoopB_flag_take ui isf (missingEv cf) body j hj ks 0 []
      simpa using h
    exact ⟨hA _ _, hA _ _, hA _ _, hA _ _, hA _ _, hA _ _, hA _ _, hA _ _,
      hA _ _, hA _ _, hB _ _ _, hB _ _ _, hB _ _ _, hB _ _ _, hB _ _ _⟩

/-- **C4, witness.**  A flag that becomes set at its second read (`j = 1`)
over a two-manifest set: manifest `"1"` is processed, manifest `"2"` never
is. -/
theorem claim_C4_witness :
    (∀ u, (MainUI.mk (fun t => decide (1 ≤ t))).stop_flag u = decide (1 ≤ u))
    ∧ C4Concl baseEnv (MainUI.mk (fun t => decide (1 ≤ t)))
        [("1", "a"), ("2", "b")] 1 :=
  ⟨fun _ => rfl,
    claim_C4 baseEnv (MainUI.mk (fun t => decide (1 ≤ t)))
      [("1", "a"), ("2", "b")] 1 (fun _ => rfl)⟩

/-! ## Claim C6 -/

/-- The spec's scenario control file set: manifest `"2"`'s locator `"f2"`
does not resolve to an existing file. -/
def cf_missing2 : ControlFileSet := [("1", "f1"), ("2", "f2"), ("3", "f3")]

/-- **C6, counterexample.**  The claim covers *every* sequential level
runner, but `do_L1_batch` has no missing-file guard at all: in the scenario
`{"1": "f1", "2": missing "f2", "3": "f3"}`, with the manifest loader
behaving as Python's `ConfigObj` does on a missing path (it returns an
empty, unusable configuration rather than raising) so that the compliance
update rejects manifest `"2"`, `do_L1_batch` logs *no* error for manifest
`"2"` — nothing is "logged as missing".  (Manifests `"1"` and `"3"` are
still processed, and the run completes.) -/
theorem claim_C6_counterexample :
    ((do_L1_batch noStop
        { baseEnv with isfile := fun p => p != "f2",
                       l1_update_controlfile := fun c => .ok (c != "f2") }
        cf_missing2).trace.filter
        (fun e => match e with | Event.error _ => true | _ => false)) = []
    ∧ handlerPaths (do_L1_batch noStop
        { baseEnv with isfile := fun p => p != "f2",
                       l1_update_controlfile := fun c => .ok (c != "f2") }
        cf_missing2).trace = ["f1", "f3"]
    ∧ (do_L1_batch noStop
        { baseEnv with isfile := fun p => p != "f2",
                       l1_update_controlfile := fun c => .ok (c != "f2") }
        cf_missing2).exn = none := by
  exact ⟨rfl, rfl, rfl⟩

/-- All the collaborator behaviour needed for one manifest `p` to be
processed cleanly by any of the guarded runners (`do_concatenate_batch`,
`do_climatology_batch`, `do_L4_batch`, `do_L5_batch`, `do_L6_batch`). -/
def cleanOn (env : Env) (p : String) : Prop :=
  env.get_controlfilecontents p = .ok p
  ∧ env.concatenate_update_controlfile p = .ok true
  ∧ env.parseConcatenateControlFile p = .ok true
  ∧ env.netCDFConcatenate p = .ok ()
  ∧ env.climatology_update_controlfile p = .ok true
  ∧ env.climatology p = .ok ()
  ∧ env.l4_update_controlfile p = .ok true
  ∧ env.l5_update_controlfile p = .ok true
  ∧ env.l6_update_controlfile p = .ok true
  ∧ env.get_infilenamefromcf p = .ok p
  ∧ env.get_outfilenamefromcf p = .ok p
  ∧ env.netCDFRead p = .ok ⟨0⟩
  ∧ env.l4qc p ⟨0⟩ = .ok ⟨0⟩
  ∧ env.l5qc p ⟨0⟩ = .ok ⟨0⟩
  ∧ env.l6qc p ⟨0⟩ = .ok ⟨0⟩
  ∧ env.netCDFWrite p ⟨0⟩ = .ok ()

/-- The content of claim C6 for the five runners that have a missing-file
guard: in the scenario `{"1": "f1", "2": missing, "3": "f3"}` the run
completes normally, manifest `"2"` is logged as missing and skipped, and the
handler is invoked exactly for manifests `"1"` and `"3"`. -/
def C6Concl (env : Env) : Prop :=
  (handlerPaths (do_concatenate_batch noStop env cf_missing2).trace = ["f1", "f3"]
    ∧ Event.error " Control file f2 not found"
        ∈ (do_concatenate_batch noStop env cf_missing2).trace
    ∧ (do_concatenate_batch noStop env cf_missing2).exn = none)
  ∧ (handlerPaths (do_climatology_batch noStop env cf_missing2).trace = ["f1", "f3"]
    ∧ Event.error " Control file f2 not found"
        ∈ (do_climatology_batch noStop env cf_missing2).trace
    ∧ (do_climatology_batch noStop env cf_missing2).exn = none)
  ∧ (handlerPaths (do_L4_batch noStop env cf_missing2).trace = ["f1", "f3"]
    ∧ Event.error " Control file f2 not found"
        ∈ (do_L4_batch noStop env cf_missing2).trace
    ∧ (do_L4_batch noStop env cf_missing2).exn = none)
  ∧ (handlerPaths (do_L5_batch noStop env cf_missing2).trace = ["f1", "f3"]
    ∧ Event.error " Control file f2 not found"
        ∈ (do_L5_batch noStop env cf_missing2).trace
    ∧ (do_L5_batch noStop env cf_missing2).exn = none)
  ∧ (handlerPaths (do_L6_batch noStop env cf_missing2).trace = ["f1", "f3"]
    ∧ Event.error " Control file f2 not found"
        ∈ (do_L6_batch noStop env cf_missing2).trace
    ∧ (do_L6_batch noStop env cf_missing2).exn = none)

/-- **C6 (amended).**  For the runners that check `os.path.isfile` before
processing — `do_concatenate_batch`, `do_climatology_batch`, `do_L4_batch`,
`do_L5_batch`, `do_L6_batch` — a manifest whose locator does not resolve to
an existing file is logged as missing (`" Control file <path> not found"`)
and skipped, and iteration continues: in the scenario
`{"1": "f1", "2": missing, "3": "f3"}` the run completes, manifest `"2"` is
logged and skipped, and the handler runs exactly on `"f1"` and `"f3"`.  The
runners without the guard (L1, L2, L3, ECOSTRESS, FluxNet, REddyProc,
CPD, MPT) have no such behaviour (see the counterexample). -/
theorem claim_C6_amended (env : Env)
    (h1 : env.isfile "f1" = true) (h2 : env.isfile "f2" = false)
    (h3 : env.isfile "f3" = true)
    (hc1 : cleanOn env "f1") (hc3 : cleanOn env "f3")
    (hfp : env.get_controlfilecontents fingerprintCfgPath
      = .ok fingerprintCfgPath)
    (hpf : env.plot_fingerprint fingerprintCfgPath = .ok ()) : C6Concl env := by
  obtain ⟨a1, a2, a3, a4, a5, a6, a7, a8, a9, a10, a11, a12, a13, a14, a15,
    a16⟩ := hc1
  obtain ⟨b1, b2, b3, b4, b5, b6, b7, b8, b9, b10, b11, b12, b13, b14, b15,
    b16⟩ := hc3
  have hks : sortNumeric (cf_missing2.map Prod.fst) = ["1", "2", "3"] := by
    decide
  have e1 : lookupCF cf_missing2 "1" = "f1" := rfl
  have e2 : lookupCF cf_missing2 "2" = "f2" := rfl
  have e3 : lookupCF cf_missing2 "3" = "f3" := rfl
  have hb1 : basename "f1" = "f1" := rfl
  have hb3 : basename "f3" = "f3" := rfl
  refine ⟨⟨?_, ?_, ?_⟩, ⟨?_, ?_, ?_⟩, ⟨?_, ?_, ?_⟩, ⟨?_, ?_, ?_⟩,
    ⟨?_, ?_, ?_⟩⟩ <;>
    simp [do_concatenate_batch, do_concatenate_batch_go,
      do_climatology_batch, do_climatology_batch_go,
      do_L4_batch, do_L4_batch_go, do_L5_batch, do_L5_batch_go,
      do_L6_batch, do_L6_batch_go, hks, runLoopB,
      concatBody, concatTryBody, climatologyBody, climatologyTryBody,
      l4Body, l4TryBody, l5Body, l5TryBody, l6Body, l6TryBody,
      step, emit, tdone, seqTry, do_batch_fingerprints, withTry,
      missingEv, handlerPaths, e1, e2, e3, hb1, hb3,
      h1, h2, h3, a1, a2, a3, a4, a5, a6, a7, a8, a9, a10, a11, a12, a13,
      a14, a15, a16, b1, b2, b3, b4, b5, b6, b7, b8, b9, b10, b11, b12,
      b13, b14, b15, b16, hfp, hpf]

/-- The all-succeeding environment except that the file `"f2"` is missing. -/
def envMissing2 : Env := { baseEnv with isfile := fun p => p != "f2" }

/-- **C6, witness.**  The amended claim instantiated at `envMissing2`. -/
theorem claim_C6_witness :
    (envMissing2.isfile "f1" = true ∧ envMissing2.isfile "f2" = false
      ∧ envMissing2.isfile "f3" = true
      ∧ cleanOn envMissing2 "f1" ∧ cleanOn envMissing2 "f3"
      ∧ envMissing2.get_controlfilecontents fingerprintCfgPath
          = .ok fingerprintCfgPath
      ∧ envMissing2.plot_fingerprint fingerprintCfgPath = .ok ())
    ∧ C6Concl envMissing2 :=
  ⟨⟨rfl, rfl, rfl,
      ⟨rfl, rfl, rfl, rfl, rfl, rfl, rfl, rfl, rfl, rfl, rfl, rfl, rfl, rfl,
        rfl, rfl⟩,
      ⟨rfl, rfl, rfl, rfl, rfl, rfl, rfl, rfl, rfl, rfl, rfl, rfl, rfl, rfl,
        rfl, rfl⟩, rfl, rfl⟩,
    claim_C6_amended envMissing2 rfl rfl rfl
      ⟨rfl, rfl, rfl, rfl, rfl, rfl, rfl, rfl, rfl, rfl, rfl, rfl, rfl, rfl,
        rfl, rfl⟩
      ⟨rfl, rfl, rfl, rfl, rfl, rfl, rfl, rfl, rfl, rfl, rfl, rfl, rfl, rfl,
        rfl, rfl⟩ rfl rfl⟩

/-! ## Claim C7 -/

/-- Every branch of the `do_levels_batch` dispatch chain only appends to the
incoming trace and advances the read counter by a fixed amount, independent
of the counter's initial value. -/
theorem levelDispatch_shape (env : Env) (LS : String → ControlFileSet)
    (level : String) :
    ∃ E c x, ∀ t tr,
      levelDispatch noStop env LS level t tr = ⟨tr ++ E, t + c, x⟩ := by
  unfold levelDispatch
  by_cases h1 : strLower level == "l1"
  · simp only [h1, if_true]
    exact runLoopA_shape _ _
  have h1f : (strLower level == "l1") = false := by simpa using h1
  simp only [h1f, Bool.false_eq_true, if_false]
  by_cases h2 : strLower level == "l2"
  · simp only [h2, if_true]
    exact runLoopA_shape _ _
  have h2f : (strLower level == "l2") = false := by simpa using h2
  simp only [h2f, Bool.false_eq_true, if_false]
  by_cases h3 : strLower level == "l3"
  · simp only [h3, if_true]
    exact runLoopA_shape _ _
  have h3f : (strLower level == "l3") = false := by simpa using h3
  simp only [h3f, Bool.false_eq_true, if_false]
  by_cases h4 : strLower level == "ecostress"
  · simp only [h4, if_true]
    exact runLoopA_shape _ _
  have h4f : (strLower level == "ecostress") = false := by simpa using h4
  simp only [h4f, Bool.false_eq_true, if_false]
  by_cases h5 : strLower level == "fluxnet"
  · simp only [h5, if_true]
    exact runLoopA_shape _ _
  have h5f : (strLower level == "fluxnet") = false := by simpa using h5
  simp only [h5f, Bool.false_eq_true, if_false]
  by_cases h6 : strLower level == "reddyproc"
  · simp only [h6, if_true]
    exact runLoopA_shape _ _
  have h6f : (strLower level == "reddyproc") = false := by simpa using h6
  simp only [h6f, Bool.false_eq_true, if_false]
  by_cases h7 : strLower level == "concatenate"
  · simp only [h7, if_true]
    exact runLoopB_shape _ _ _ _
  have h7f : (strLower level == "concatenate") = false := by simpa using h7
  simp only [h7f, Bool.false_eq_true, if_false]
  by_cases h8 : strLower level == "climatology"
  · simp only [h8, if_true]
    exact runLoopB_shape _ _ _ _
  have h8f : (strLower level == "climatology") = false := by simpa using h8
  simp only [h8f, Bool.false_eq_true, if_false]
  by_cases h9 : strLower level == "cpd_barr"
  · simp only [h9, if_true]
    exact runLoopA_shape _ _
  have h9f : (strLower level == "cpd_barr") = false := by simpa using h9
  simp only [h9f, Bool.false_eq_true, if_false]
  by_cases h10 : strLower level == "cpd_mchugh"
  · simp only [h10, if_true]
    exact runLoopA_shape _ _
  have h10f : (strLower level == "cpd_mchugh") = false := by simpa using h10
  simp only [h10f, Bool.false_eq_true, if_false]
  by_cases h11 : strLower level == "cpd_mcnew"
  · simp only [h11, if_true]
    exact runLoopA_shape _ _
  have h11f : (strLower level == "cpd_mcnew") = false := by simpa using h11
  simp only [h11f, Bool.false_eq_true, if_false]
  by_cases h12 : strLower level == "mpt"
  · simp only [h12, if_true]
    exact runLoopA_shape _ _
  have h12f : (strLower level == "mpt") = false := by simpa using h12
  simp only [h12f, Bool.false_eq_true, if_false]
  by_cases h13 : strLower level == "l4"
  · simp only [h13, if_true]
    exact runLoopB_shape _ _ _ _
  have h13f : (strLower level == "l4") = false := by simpa using h13
  simp only [h13f, Bool.false_eq_true, if_false]
  by_cases h14 : strLower level == "l5"
  · simp only [h14, if_true]
    exact runLoopB_shape _ _ _ _
  have h14f : (strLower level == "l5") = false := by simpa using h14
  simp only [h14f, Bool.false_eq_true, if_false]
  by_cases h15 : strLower level == "l6"
  · simp only [h15, if_true]
    exact runLoopB_shape _ _ _ _
  have h15f : (strLower level == "l6") = false := by simpa using h15
  simp only [h15f, Bool.false_eq_true, if_false]
  exact ⟨[], 0, none, fun t tr => by simp⟩

/-- With an unset stop flag, the `do_levels_batch` loop only appends to the
incoming trace and its behaviour is independent of the read counter's
initial value. -/
theorem do_levels_batch_go_shape (env : Env)
    (LS : String → ControlFileSet) :
    ∀ ls : List String, ∃ E c x, ∀ t tr,
      do_levels_batch_go noStop env LS ls t tr = ⟨tr ++ E, t + c, x⟩ := by
  intro ls
  induction ls with
  | nil => exact ⟨[], 0, none, fun t tr => by simp [do_levels_batch_go]⟩
  | cons lvl rest ih =>
    by_cases hr : recognizedLevel lvl
    · obtain ⟨E1, c1, x1, hd⟩ := levelDispatch_shape env LS lvl
      cases x1 with
      | none =>
        obtain ⟨E2, c2, x2, hrest⟩ := ih
        refine ⟨E1 ++ E2, 1 + c1 + c2, x2, fun t tr => ?_⟩
        rw [do_levels_batch_go]
        simp only [noStop_flag, Bool.false_eq_true, if_false, hr,
          Bool.not_true]
        rw [hd (t + 1) tr]
        simp only []
        rw [hrest]
        simp only [List.append_assoc, RunResult.mk.injEq, and_true, true_and]
        omega
      | some m =>
        refine ⟨E1, 1 + c1, some m, fun t tr => ?_⟩
        rw [do_levels_batch_go]
        simp only [noStop_flag, Bool.false_eq_true, if_false, hr,
          Bool.not_true]
        rw [hd (t + 1) tr]
        simp only [RunResult.mk.injEq, and_true, true_and]
        omega
    · obtain ⟨E2, c2, x2, hrest⟩ := ih
      refine ⟨Event.warn ("Unrecognised level " ++ lvl) :: E2, 1 + c2, x2,
        fun t tr => ?_⟩
      rw [do_levels_batch_go]
      have hrb : recognizedLevel lvl = false := by simpa using hr
      simp only [noStop_flag, Bool.false_eq_true, if_false, hrb,
        Bool.not_false, if_pos]
      rw [hrest]
      simp only [List.append_assoc, List.singleton_append,
        RunResult.mk.injEq, and_true, true_and]
      omega

/-- The content of claim C7: membership in the known level set depends only
on the lowercased identifier (and is thus case-insensitive); concretely
`"L4"` is recognized and `"qc"` is not; and an unrecognized identifier at the
head of the declared level list produces exactly one warning log line — no
handler, no collaborator call — after which the remaining levels run exactly
as they would have without it. -/
def C7Concl (env : Env) (LS : String → ControlFileSet) (bad : String)
    (rest : List String) : Prop :=
  (∀ s t : String, strLower s = strLower t →
    recognizedLevel s = recognizedLevel t)
  ∧ recognizedLevel "L4" = true
  ∧ recognizedLevel "qc" = false
  ∧ (do_levels_batch noStop env ⟨some (bad :: rest), LS⟩).trace
      = Event.warn ("Unrecognised level " ++ bad)
          :: (do_levels_batch noStop env ⟨some rest, LS⟩).trace
  ∧ (do_levels_batch noStop env ⟨some (bad :: rest), LS⟩).exn
      = (do_levels_batch noStop env ⟨some rest, LS⟩).exn

/-- **C7.**  In `do_levels_batch`, membership in the known level set is
decided case-insensitively; an unrecognized identifier never invokes any
handler, is logged as a warning, and does not abort processing of the
subsequent recognized levels of the same run. -/
theorem claim_C7 (env : Env) (LS : String → ControlFileSet) (bad : String)
    (rest : List String) (hbad : recognizedLevel bad = false) :
    C7Concl env LS bad rest := by
  obtain ⟨E, c, x, hsh⟩ := do_levels_batch_go_shape env LS rest
  have hrun : do_levels_batch noStop env ⟨some (bad :: rest), LS⟩
      = ⟨Event.warn ("Unrecognised level " ++ bad) :: E, 1 + c, x⟩ := by
    show do_levels_batch_go noStop env LS (bad :: rest) 0 [] = _
    rw [do_levels_batch_go]
    simp only [noStop_flag, Bool.false_eq_true, if_false, hbad,
      Bool.not_false, if_pos]
    rw [hsh (0 + 1) ([] ++ [Event.warn ("Unrecognised level " ++ bad)])]
    simp only [List.nil_append, List.singleton_append, RunResult.mk.injEq,
      and_true, true_and]
  have hrun2 : do_levels_batch noStop env ⟨some rest, LS⟩ = ⟨E, c, x⟩ := by
    show do_levels_batch_go noStop env LS rest 0 [] = _
    rw [hsh 0 []]
    simp
  refine ⟨fun s t h => by simp [recognizedLevel, h], by decide, by decide,
    ?_, ?_⟩
  · rw [hrun, hrun2]
  · rw [hrun, hrun2]

/-- **C7, witness.**  The unrecognized identifier `"qc"` before a recognized
`"L1"` level. -/
theorem claim_C7_witness :
    recognizedLevel "qc" = false
    ∧ C7Concl baseEnv (fun _ => [("1", "a")]) "qc" ["L1"] :=
  ⟨by decide, claim_C7 baseEnv (fun _ => [("1", "a")]) "qc" ["L1"] (by decide)⟩

/-! ## Claim C8 -/

/-- **C8, counterexample.**  The claim covers *every* manifest processed by a
sequential level runner, but `do_ecostress_batch` (and likewise the FluxNet
and REddyProc runners) never calls any compliance-update collaborator: on a
plain successful run its trace contains the handler invocation and no
compliance call at all. -/
theorem claim_C8_counterexample :
    (do_ecostress_batch noStop baseEnv [("1", "a")]).trace =
      [Event.info "Starting ECOSTRESS output with a",
       Event.call (.getCfc "a"),
       Event.call (.handler "ecostress" "a"),
       Event.info "Finished ECOSTRESS output with a", Event.info ""]
    ∧ ((do_ecostress_batch noStop baseEnv [("1", "a")]).trace.filter
        (fun e => match e with
          | Event.call (.compliance _ _) => true
          | _ => false)) = []
    ∧ Event.call (.handler "ecostress" "a")
        ∈ (do_ecostress_batch noStop baseEnv [("1", "a")]).trace := by
  exact ⟨rfl, rfl, by decide⟩

/-- The content of claim C8 for the twelve runners that do call a
compliance-update collaborator.  For each: (skip) if the loaded manifest
fails validation the iteration performs exactly the load and the validation
call and then falls through to the next manifest — no handler call, no
output write; (gate) whenever the iteration's trace contains a handler
invocation, the manifest was loaded and its compliance update returned
true. -/
def C8Concl : Prop :=
  (∀ env path base cfg, env.get_controlfilecontents path = .ok cfg →
    env.l1_update_controlfile cfg = .ok false →
    l1TryBody env path base =
      ([Event.call (.getCfc path), Event.call (.compliance "L1" cfg)],
        TryOut.next))
  ∧ (∀ env path base lvl c,
      Event.call (.handler lvl c) ∈ (l1TryBody env path base).1 →
      ∃ cfg, env.get_controlfilecontents path = .ok cfg
        ∧ env.l1_update_controlfile cfg = .ok true)
  ∧ (∀ env path base cfg, env.get_controlfilecontents path = .ok cfg →
    env.l2_update_controlfile cfg = .ok false →
    l2TryBody env path base =
      ([Event.call (.getCfc path), Event.call (.compliance "L2" cfg)],
        TryOut.next))
  ∧ (∀ env path base lvl c,
      Event.call (.handler lvl c) ∈ (l2TryBody env path base).1 →
      ∃ cfg, env.get_controlfilecontents path = .ok cfg
        ∧ env.l2_update_controlfile cfg = .ok true)
  ∧ (∀ env path base cfg, env.get_controlfilecontents path = .ok cfg →
    env.l3_update_controlfile cfg = .ok false →
    l3TryBody env path base =
      ([Event.call (.getCfc path), Event.call (.compliance "L3" cfg)],
        TryOut.next))
  ∧ (∀ env path base lvl c,
      Event.call (.handler lvl c) ∈ (l3TryBody env path base).1 →
      ∃ cfg, env.get_controlfilecontents path = .ok cfg
        ∧ env.l3_update_controlfile cfg = .ok true)
  ∧ (∀ env path base cfg, env.get_controlfilecontents path = .ok cfg →
    env.concatenate_update_controlfile cfg = .ok false →
    concatTryBody env path base =
      ([Event.call (.getCfc path),
        Event.call (.compliance "concatenate" cfg)], TryOut.next))
  ∧ (∀ env path base lvl c,
      Event.call (.handler lvl c) ∈ (concatTryBody env path base).1 →
      ∃ cfg, env.get_controlfilecontents path = .ok cfg
        ∧ env.concatenate_update_controlfile cfg = .ok true)
  ∧ (∀ env path base cfg, env.get_controlfilecontents path = .ok cfg →
    env.climatology_update_controlfile cfg = .ok false →
    climatologyTryBody env path base =
      ([Event.call (.getCfc path),
        Event.call (.compliance "climatology" cfg)], TryOut.next))
  ∧ (∀ env path base lvl c,
      Event.call (.handler lvl c) ∈ (climatologyTryBody env path base).1 →
      ∃ cfg, env.get_controlfilecontents path = .ok cfg
        ∧ env.climatology_update_controlfile cfg = .ok true)
  ∧ (∀ env path base cfg, env.get_controlfilecontents path = .ok cfg →
    env.cpd_barr_update_controlfile cfg = .ok false →
    cpdBarrTryBody env path base =
      ([Event.call (.getCfc path),
        Event.call (.compliance "cpd_barr" cfg)], TryOut.next))
  ∧ (∀ env path base lvl c,
      Event.call (.handler lvl c) ∈ (cpdBarrTryBody env path base).1 →
      ∃ cfg, env.get_controlfilecontents path = .ok cfg
        ∧ env.cpd_barr_update_controlfile cfg = .ok true)
  ∧ (∀ env path base cfg, env.get_controlfilecontents path = .ok cfg →
    env.cpd_mchugh_update_controlfile cfg = .ok false →
    cpdMchughTryBody env path base =
      ([Event.call (.getCfc path),
        Event.call (.compliance "cpd_mchugh" cfg)], TryOut.next))
  ∧ (∀ env path base lvl c,
      Event.call (.handler lvl c) ∈ (cpdMchughTryBody env path base).1 →
      ∃ cfg, env.get_controlfilecontents path = .ok cfg
        ∧ env.cpd_mchugh_update_controlfile cfg = .ok true)
  ∧ (∀ env path base cfg, env.get_controlfilecontents path = .ok cfg →
    env.cpd_mcnew_update_controlfile cfg = .ok false →
    cpdMcnewTryBody env path base =
      ([Event.call (.getCfc path),
        Event.call (.compliance "cpd_mcnew" cfg)], TryOut.next))
  ∧ (∀ env path base lvl c,
      Event.call (.handler lvl c) ∈ (cpdMcnewTryBody env path base).1 →
      ∃ cfg, env.get_controlfilecontents path = .ok cfg
        ∧ env.cpd_mcnew_update_controlfile cfg = .ok true)
  ∧ (∀ env path base cfg, env.get_controlfilecontents path = .ok cfg →
    env.mpt_update_controlfile cfg = .ok false →
    mptTryBody env path base =
      ([Event.call (.getCfc path), Event.call (.compliance "mpt" cfg)],
        TryOut.next))
  ∧ (∀ env path base lvl c,
      Event.call (.handler lvl c) ∈ (mptTryBody env path base).1 →
      ∃ cfg, env.get_controlfilecontents path = .ok cfg
        ∧ env.mpt_update_controlfile cfg = .ok true)
  ∧ (∀ env path base cfg, env.get_controlfilecontents path = .ok cfg →
    env.l4_update_controlfile cfg = .ok false →
    l4TryBody env path base =
      ([Event.call (.getCfc path), Event.call (.compliance "L4" cfg)],
        TryOut.next))
  ∧ (∀ env path base lvl c,
      Event.call (.handler lvl c) ∈ (l4TryBody env path base).1 →
      ∃ cfg, env.get_controlfilecontents path = .ok cfg
        ∧ env.l4_update_controlfile cfg = .ok true)
  ∧ (∀ env path base cfg, env.get_controlfilecontents path = .ok cfg →
    env.l5_update_controlfile cfg = .ok false →
    l5TryBody env path base =
      ([Event.call (.getCfc path), Event.call (.compliance "L5" cfg)],
        TryOut.next))
  ∧ (∀ env path base lvl c,
      Event.call (.handler lvl c) ∈ (l5TryBody env path base).1 →
      ∃ cfg, env.get_controlfilecontents path = .ok cfg
        ∧ env.l5_update_controlfile cfg = .ok true)
  ∧ (∀ env path base cfg, env.get_controlfilecontents path = .ok cfg →
    env.l6_update_controlfile cfg = .ok false →
    l6TryBody env path base =
      ([Event.call (.getCfc path), Event.call (.compliance "L6" cfg)],
        TryOut.next))
  ∧ (∀ env path base lvl c,
      Event.call (.handler lvl c) ∈ (l6TryBody env path base).1 →
      ∃ cfg, env.get_controlfilecontents path = .ok cfg
        ∧ env.l6_update_controlfile cfg = .ok true)

/-- A `try:` body of the common shape — load, validate, then the rest —
performs exactly the load and validation calls and falls through when
validation rejects the manifest. -/
theorem skip_generic (upd : String → Outcome Bool) (lvlTag : String)
    (restBody : String → List Event × TryOut) (path cfg : String)
    (hu : upd cfg = .ok false) :
    (step (.getCfc path) (Outcome.ok cfg) fun cfg' =>
      step (.compliance lvlTag cfg') (upd cfg') fun ok =>
      if !ok then tdone [] else restBody cfg') =
      ([Event.call (.getCfc path), Event.call (.compliance lvlTag cfg)],
        TryOut.next) := by
  simp [step, hu, tdone]

/-- A `try:` body of the common shape reaches any handler invocation only
after the manifest loaded and its compliance update returned true. -/
theorem gate_generic (getc : Outcome String) (upd : String → Outcome Bool)
    (lvlTag : String) (restBody : String → List Event × TryOut)
    (path lvl c : String)
    (hmem : Event.call (.handler lvl c) ∈
      (step (.getCfc path) getc fun cfg =>
        step (.compliance lvlTag cfg) (upd cfg) fun ok =>
        if !ok then tdone [] else restBody cfg).1) :
    ∃ cfg, getc = Outcome.ok cfg ∧ upd cfg = Outcome.ok true := by
  rcases getc with cfg | m
  · rcases hu : upd cfg with u | m
    · cases u
      · simp [step, hu, tdone] at hmem
      · exact ⟨cfg, rfl, hu⟩
    · simp [step, hu] at hmem
  · simp [step] at hmem

/-- **C8 (amended).**  Every sequential level runner *except*
`do_ecostress_batch`, `do_fluxnet_batch` and `do_reddyproc_batch` validates
the manifest via its compliance-update collaborator before invoking the
level handler, and skips the manifest (no handler call) whenever that
collaborator returns false; the ECOSTRESS, FluxNet and REddyProc runners
invoke their handler with no compliance validation at all (see the
counterexample). -/
theorem claim_C8_amended : C8Concl := by
  refine ⟨?_, ?_, ?_, ?_, ?_, ?_, ?_, ?_, ?_, ?_, ?_, ?_, ?_, ?_, ?_, ?_,
    ?_, ?_, ?_, ?_, ?_, ?_, ?_, ?_⟩
  · intro env path base cfg hg hu
    unfold l1TryBody
    rw [hg]
    exact skip_generic _ _ _ _ _ hu
  · intro env path base lvl c hmem
    exact gate_generic _ _ _ _ path lvl c hmem
  · intro env path base cfg hg hu
    unfold l2TryBody
    rw [hg]
    exact skip_generic _ _ _ _ _ hu
  · intro env path base lvl c hmem
    exact gate_generic _ _ _ _ path lvl c hmem
  · intro env path base cfg hg hu
    unfold l3TryBody
    rw [hg]
    exact skip_generic _ _ _ _ _ hu
  · intro env path base lvl c hmem
    exact gate_generic _ _ _ _ path lvl c hmem
  · intro env path base cfg hg hu
    unfold concatTryBody
    rw [hg]
    exact skip_generic _ _ _ _ _ hu
  · intro env path base lvl c hmem
    exact gate_generic _ _ _ _ path lvl c hmem
  · intro env path base cfg hg hu
    unfold climatologyTryBody
    rw [hg]
    exact skip_generic _ _ _ _ _ hu
  · intro env path base lvl c hmem
    exact gate_generic _ _ _ _ path lvl c hmem
  · intro env path base cfg hg hu
    unfold cpdBarrTryBody
    rw [hg]
    exact skip_generic _ _ _ _ _ hu
  · intro env path base lvl c hmem
    exact gate_generic _ _ _ _ path lvl c hmem
  · intro env path base cfg hg hu
    unfold cpdMchughTryBody
    rw [hg]
    exact skip_generic _ _ _ _ _ hu
  · intro env path base lvl c hmem
    exact gate_generic _ _ _ _ path lvl c hmem
  · intro env path base cfg hg hu
    unfold cpdMcnewTryBody
    rw [hg]
    exact skip_generic _ _ _ _ _ hu
  · intro env path base lvl c hmem
    exact gate_generic _ _ _ _ path lvl c hmem
  · intro env path base cfg hg hu
    unfold mptTryBody
    rw [hg]
    exact skip_generic _ _ _ _ _ hu
  · intro env path base lvl c hmem
    exact gate_generic _ _ _ _ path lvl c hmem
  · intro env path base cfg hg hu
    unfold l4TryBody
    rw [hg]
    exact skip_generic _ _ _ _ _ hu
  · intro env path base lvl c hmem
    exact gate_generic _ _ _ _ path lvl c hmem
  · intro env path base cfg hg hu
    unfold l5TryBody
    rw [hg]
    exact skip_generic _ _ _ _ _ hu
  · intro env path base lvl c hmem
    exact gate_generic _ _ _ _ path lvl c hmem
  · intro env path base cfg hg hu
    unfold l6TryBody
    rw [hg]
    exact skip_generic _ _ _ _ _ hu
  · intro env path base lvl c hmem
    exact gate_generic _ _ _ _ path lvl c hmem

/-- **C8, witness.**  The L1 skip case at a concrete environment whose
compliance update rejects every manifest. -/
theorem claim_C8_witness :
    ({ baseEnv with l1_update_controlfile := fun _ => .ok false }
        : Env).get_controlfilecontents "p" = .ok "p"
    ∧ ({ baseEnv with l1_update_controlfile := fun _ => .ok false }
        : Env).l1_update_controlfile "p" = .ok false
    ∧ l1TryBody { baseEnv with l1_update_controlfile := fun _ => .ok false }
        "p" "p" =
        ([Event.call (.getCfc "p"), Event.call (.compliance "L1" "p")],
          TryOut.next) :=
  ⟨rfl, rfl,
    claim_C8_amended.1 { baseEnv with l1_update_controlfile := fun _ => .ok false }
      "p" "p" "p" rfl rfl⟩

/-! ## Claim C9 -/

/-- Reading the input dataset for manifest `p` succeeds as an operation but
yields a dataset with a nonzero return code (after a clean load and a
passing compliance update `upd`). -/
def readFailAt (env : Env) (upd : String → Outcome Bool) (p : String) : Prop :=
  ∃ cfg infn ds, env.get_controlfilecontents p = .ok cfg
    ∧ upd cfg = .ok true
    ∧ env.get_infilenamefromcf cfg = .ok infn
    ∧ env.netCDFRead infn = .ok ds
    ∧ ds.returncode ≠ 0

/-- A `try:` body of the L2..L6 shape hits the
`if ds.returncodes["value"] != 0: return` line when the read yields a
nonzero return code: it performs exactly the load, validation, input-name
and read calls — no error log, no handler — and then executes `return`. -/
theorem readfail_generic (getc : Outcome String) (upd : String → Outcome Bool)
    (lvlTag : String) (getin : String → Outcome String)
    (rd : String → Outcome Dataset)
    (restBody : String → Dataset → List Event × TryOut)
    (path cfg infn : String) (ds : Dataset)
    (hg : getc = .ok cfg) (hu : upd cfg = .ok true)
    (hi : getin cfg = .ok infn) (hr : rd infn = .ok ds)
    (hd : ds.returncode ≠ 0) :
    (step (.getCfc path) getc fun cfg' =>
      step (.compliance lvlTag cfg') (upd cfg') fun ok =>
      if !ok then tdone [] else
      step (.getInfilename cfg') (getin cfg') fun infn' =>
      step (.read infn') (rd infn') fun ds' =>
      if ds'.returncode != 0 then ([], .ret) else restBody cfg' ds') =
    ([Event.call (.getCfc path), Event.call (.compliance lvlTag cfg),
      Event.call (.getInfilename cfg), Event.call (.read infn)],
      TryOut.ret) := by
  subst hg
  simp [step, hu, hi, hr, tdone, bne_iff_ne, hd]

/-- The content of claim C9, one conjunct per runner L2..L6: if, for some
manifest `k` of the control file set, the dataset read yields a nonzero
return code (and the manifests iterated before `k` all fell through
normally; for the guarded runners `k`'s file also exists), then the runner
behaves exactly like the run truncated immediately after `k` — every
remaining manifest is skipped without being processed and without any error
being logged — the runner returns normally, `k`'s iteration executes
`return`, and `k`'s iteration itself invokes no handler and logs no
error. -/
def C9Concl : Prop :=
  (∀ env cf ks₁ k rest,
    cf.map Prod.fst = ks₁ ++ k :: rest →
    (∀ k' ∈ ks₁, (l2Body env cf k').2 = LoopCtl.next) →
    readFailAt env env.l2_update_controlfile (lookupCF cf k) →
      traceExn (do_L2_batch noStop env cf)
        = traceExn (runLoopA noStop (l2Body env cf) (ks₁ ++ [k]) 0 [])
      ∧ (do_L2_batch noStop env cf).exn = none
      ∧ (l2Body env cf k).2 = LoopCtl.ret
      ∧ handlerPaths (l2Body env cf k).1 = []
      ∧ ((l2Body env cf k).1.filter
          (fun e => match e with | Event.error _ => true | _ => false)) = [])
  ∧ (∀ env cf ks₁ k rest,
    cf.map Prod.fst = ks₁ ++ k :: rest →
    (∀ k' ∈ ks₁, (l3Body env cf k').2 = LoopCtl.next) →
    readFailAt env env.l3_update_controlfile (lookupCF cf k) →
      traceExn (do_L3_batch noStop env cf)
        = traceExn (runLoopA noStop (l3Body env cf) (ks₁ ++ [k]) 0 [])
      ∧ (do_L3_batch noStop env cf).exn = none
      ∧ (l3Body env cf k).2 = LoopCtl.ret
      ∧ handlerPaths (l3Body env cf k).1 = []
      ∧ ((l3Body env cf k).1.filter
          (fun e => match e with | Event.error _ => true | _ => false)) = [])
  ∧ (∀ env cf ks₁ k rest,
    sortNumeric (cf.map Prod.fst) = ks₁ ++ k :: rest →
    (∀ k' ∈ ks₁, env.isfile (lookupCF cf k') = false
      ∨ (l4Body env cf k').2 = LoopCtl.next) →
    env.isfile (lookupCF cf k) = true →
    readFailAt env env.l4_update_controlfile (lookupCF cf k) →
      traceExn (do_L4_batch noStop env cf)
        = traceExn (runLoopB noStop (fun i => env.isfile (lookupCF cf i))
            (missingEv cf) (l4Body env cf) (ks₁ ++ [k]) 0 [])
      ∧ (do_L4_batch noStop env cf).exn = none
      ∧ (l4Body env cf k).2 = LoopCtl.ret
      ∧ handlerPaths (l4Body env cf k).1 = []
      ∧ ((l4Body env cf k).1.filter
          (fun e => match e with | Event.error _ => true | _ => false)) = [])
  ∧ (∀ env cf ks₁ k rest,
    sortNumeric (cf.map Prod.fst) = ks₁ ++ k :: rest →
    (∀ k' ∈ ks₁, env.isfile (lookupCF cf k') = false
      ∨ (l5Body env cf k').2 = LoopCtl.next) →
    env.isfile (lookupCF cf k) = true →
    readFailAt env env.l5_update_controlfile (lookupCF cf k) →
      traceExn (do_L5_batch noStop env cf)
        = traceExn (runLoopB noStop (fun i => env.isfile (lookupCF cf i))
            (missingEv cf) (l5Body env cf) (ks₁ ++ [k]) 0 [])
      ∧ (do_L5_batch noStop env cf).exn = none
      ∧ (l5Body env cf k).2 = LoopCtl.ret
      ∧ handlerPaths (l5Body env cf k).1 = []
      ∧ ((l5Body env cf k).1.filter
          (fun e => match e with | Event.error _ => true | _ => false)) = [])
  ∧ (∀ env cf ks₁ k rest,
    cf.map Prod.fst = ks₁ ++ k :: rest →
    (∀ k' ∈ ks₁, env.isfile (lookupCF cf k') = false
      ∨ (l6Body env cf k').2 = LoopCtl.next) →
    env.isfile (lookupCF cf k) = true →
    readFailAt env env.l6_update_controlfile (lookupCF cf k) →
      traceExn (do_L6_batch noStop env cf)
        = traceExn (runLoopB noStop (fun i => env.isfile (lookupCF cf i))
            (missingEv cf) (l6Body env cf) (ks₁ ++ [k]) 0 [])
      ∧ (do_L6_batch noStop env cf).exn = none
      ∧ (l6Body env cf k).2 = LoopCtl.ret
      ∧ handlerPaths (l6Body env cf k).1 = []
      ∧ ((l6Body env cf k).1.filter
          (fun e => match e with | Event.error _ => true | _ => false)) = [])

/-- **C9.**  In `do_L2_batch` through `do_L6_batch`, a manifest whose input
dataset reads with a nonzero return code makes the runner function `return`
immediately: all remaining manifests of that level's control file set are
skipped without being processed and without any error being logged — not
only the failing manifest — and the runner returns normally. -/
theorem claim_C9 : C9Concl := by
  refine ⟨?_, ?_, ?_, ?_, ?_⟩
  · intro env cf ks₁ k rest hkeys hprev hfail
    obtain ⟨cfg, infn, ds, hg, hu, hi, hr, hd⟩ := hfail
    have htb : l2TryBody env (lookupCF cf k) (basename (lookupCF cf k)) =
        ([Event.call (.getCfc (lookupCF cf k)),
          Event.call (.compliance "L2" cfg),
          Event.call (.getInfilename cfg), Event.call (.read infn)],
          TryOut.ret) := by
      unfold l2TryBody
      exact readfail_generic _ _ _ _ _ _ _ _ _ _ hg hu hi hr hd
    have hbody : l2Body env cf k =
        (Event.info ("Starting L2 processing with "
            ++ basename (lookupCF cf k)) ::
          [Event.call (.getCfc (lookupCF cf k)),
           Event.call (.compliance "L2" cfg),
           Event.call (.getInfilename cfg), Event.call (.read infn)],
          LoopCtl.ret) := by
      simp only [l2Body]
      rw [htb]
      rfl
    have h2 : (l2Body env cf k).2 = LoopCtl.ret := by rw [hbody]
    have hL : do_L2_batch noStop env cf
        = runLoopA noStop (l2Body env cf) (ks₁ ++ k :: rest) 0 [] := by
      unfold do_L2_batch do_L2_batch_go
      rw [hkeys]
    have hstep1 := runLoopA_append_next (l2Body env cf) ks₁ (k :: rest)
      hprev 0 []
    have hstep2 := runLoopA_append_next (l2Body env cf) ks₁ [k] hprev 0 []
    have hret1 := runLoopA_ret_head noStop (l2Body env cf) k rest
      (0 + ks₁.length) ([] ++ bodyEvts (l2Body env cf) ks₁) rfl h2
    have hret2 := runLoopA_ret_head noStop (l2Body env cf) k []
      (0 + ks₁.length) ([] ++ bodyEvts (l2Body env cf) ks₁) rfl h2
    refine ⟨?_, ?_, h2, ?_, ?_⟩
    · rw [hL, hstep1, hret1, hstep2, hret2]
    · rw [hL, hstep1, hret1]
    · rw [hbody]
      rfl
    · rw [hbody]
      rfl
  · intro env cf ks₁ k rest hkeys hprev hfail
    obtain ⟨cfg, infn, ds, hg, hu, hi, hr, hd⟩ := hfail
    have htb : l3TryBody env (lookupCF cf k) (basename (lookupCF cf k)) =
        ([Event.call (.getCfc (lookupCF cf k)),
          Event.call (.compliance "L3" cfg),
          Event.call (.getInfilename cfg), Event.call (.read infn)],
          TryOut.ret) := by
      unfold l3TryBody
      exact readfail_generic _ _ _ _ _ _ _ _ _ _ hg hu hi hr hd
    have hbody : l3Body env cf k =
        (Event.info ("Starting L3 processing with "
            ++ basename (lookupCF cf k)) ::
          [Event.call (.getCfc (lookupCF cf k)),
           Event.call (.compliance "L3" cfg),
           Event.call (.getInfilename cfg), Event.call (.read infn)],
          LoopCtl.ret) := by
      simp only [l3Body]
      rw [htb]
      rfl
    have h2 : (l3Body env cf k).2 = LoopCtl.ret := by rw [hbody]
    have hL : do_L3_batch noStop env cf
        = runLoopA noStop (l3Body env cf) (ks₁ ++ k :: rest) 0 [] := by
      unfold do_L3_batch do_L3_batch_go
      rw [hkeys]
    have hstep1 := runLoopA_append_next (l3Body env cf) ks₁ (k :: rest)
      hprev 0 []
    have hstep2 := runLoopA_append_next (l3Body env cf) ks₁ [k] hprev 0 []
    have hret1 := runLoopA_ret_head noStop (l3Body env cf) k rest
      (0 + ks₁.length) ([] ++ bodyEvts (l3Body env cf) ks₁) rfl h2
    have hret2 := runLoopA_ret_head noStop (l3Body env cf) k []
      (0 + ks₁.length) ([] ++ bodyEvts (l3Body env cf) ks₁) rfl h2
    refine ⟨?_, ?_, h2, ?_, ?_⟩
    · rw [hL, hstep1, hret1, hstep2, hret2]
    · rw [hL, hstep1, hret1]
    · rw [hbody]
      rfl
    · rw [hbody]
      rfl
  · intro env cf ks₁ k rest hkeys hprev hisf hfail
    obtain ⟨cfg, infn, ds, hg, hu, hi, hr, hd⟩ := hfail
    have htb : l4TryBody env (lookupCF cf k) (basename (lookupCF cf k)) =
        ([Event.call (.getCfc (lookupCF cf k)),
          Event.call (.compliance "L4" cfg),
          Event.call (.getInfilename cfg), Event.call (.read infn)],
          TryOut.ret) := by
      unfold l4TryBody
      exact readfail_generic _ _ _ _ _ _ _ _ _ _ hg hu hi hr hd
    have hbody : l4Body env cf k =
        (Event.info ("Starting L4 processing with "
            ++ basename (lookupCF cf k)) ::
          [Event.call (.getCfc (lookupCF cf k)),
           Event.call (.compliance "L4" cfg),
           Event.call (.getInfilename cfg), Event.call (.read infn)],
          LoopCtl.ret) := by
      simp only [l4Body]
      rw [htb]
      rfl
    have h2 : (l4Body env cf k).2 = LoopCtl.ret := by rw [hbody]
    have hL : do_L4_batch noStop env cf
        = runLoopB noStop (fun i => env.isfile (lookupCF cf i))
            (missingEv cf) (l4Body env cf) (ks₁ ++ k :: rest) 0 [] := by
      unfold do_L4_batch do_L4_batch_go
      rw [hkeys]
    have hstep1 := runLoopB_append_next (fun i => env.isfile (lookupCF cf i))
      (missingEv cf) (l4Body env cf) ks₁ (k :: rest) hprev 0 []
    have hstep2 := runLoopB_append_next (fun i => env.isfile (lookupCF cf i))
      (missingEv cf) (l4Body env cf) ks₁ [k] hprev 0 []
    have hret1 := runLoopB_ret_head noStop
      (fun i => env.isfile (lookupCF cf i)) (missingEv cf) (l4Body env cf)
      k rest (0 + ks₁.countP (fun x => env.isfile (lookupCF cf x)))
      ([] ++ bodyEvtsB (fun i => env.isfile (lookupCF cf i)) (missingEv cf)
        (l4Body env cf) ks₁) hisf rfl h2
    have hret2 := runLoopB_ret_head noStop
      (fun i => env.isfile (lookupCF cf i)) (missingEv cf) (l4Body env cf)
      k [] (0 + ks₁.countP (fun x => env.isfile (lookupCF cf x)))
      ([] ++ bodyEvtsB (fun i => env.isfile (lookupCF cf i)) (missingEv cf)
        (l4Body env cf) ks₁) hisf rfl h2
    refine ⟨?_, ?_, h2, ?_, ?_⟩
    · rw [hL, hstep1, hret1, hstep2, hret2]
    · rw [hL, hstep1, hret1]
    · rw [hbody]
      rfl
    · rw [hbody]
      rfl
  · intro env cf ks₁ k rest hkeys hprev hisf hfail
    obtain ⟨cfg, infn, ds, hg, hu, hi, hr, hd⟩ := hfail
    have htb : l5TryBody env (lookupCF cf k) (basename (lookupCF cf k)) =
        ([Event.call (.getCfc (lookupCF cf k)),
          Event.call (.compliance "L5" cfg),
          Event.call (.getInfilename cfg), Event.call (.read infn)],
          TryOut.ret) := by
      unfold l5TryBody
      exact readfail_generic _ _ _ _ _ _ _ _ _ _ hg hu hi hr hd
    have hbody : l5Body env cf k =
        (Event.info ("Starting L5 processing with "
            ++ basename (lookupCF cf k)) ::
          [Event.call (.getCfc (lookupCF cf k)),
           Event.call (.compliance "L5" cfg),
           Event.call (.getInfilename cfg), Event.call (.read infn)],
          LoopCtl.ret) := by
      simp only [l5Body]
      rw [htb]
      rfl
    have h2 : (l5Body env cf k).2 = LoopCtl.ret := by rw [hbody]
    have hL : do_L5_batch noStop env cf
        = runLoopB noStop (fun i => env.isfile (lookupCF cf i))
            (missingEv cf) (l5Body env cf) (ks₁ ++ k :: rest) 0 [] := by
      unfold do_L5_batch do_L5_batch_go
      rw [hkeys]
    have hstep1 := runLoopB_append_next (fun i => env.isfile (lookupCF cf i))
      (missingEv cf) (l5Body env cf) ks₁ (k :: rest) hprev 0 []
    have hstep2 := runLoopB_append_next (fun i => env.isfile (lookupCF cf i))
      (missingEv cf) (l5Body env cf) ks₁ [k] hprev 0 []
    have hret1 := runLoopB_ret_head noStop
      (fun i => env.isfile (lookupCF cf i)) (missingEv cf) (l5Body env cf)
      k rest (0 + ks₁.countP (fun x => env.isfile (lookupCF cf x)))
      ([] ++ bodyEvtsB (fun i => env.isfile (lookupCF cf i)) (missingEv cf)
        (l5Body env cf) ks₁) hisf rfl h2
    have hret2 := runLoopB_ret_head noStop
      (fun i => env.isfile (lookupCF cf i)) (missingEv cf) (l5Body env cf)
      k [] (0 + ks₁.countP (fun x => env.isfile (lookupCF cf x)))
      ([] ++ bodyEvtsB (fun i => env.isfile (lookupCF cf i)) (missingEv cf)
        (l5Body env cf) ks₁) hisf rfl h2
    refine ⟨?_, ?_, h2, ?_, ?_⟩
    · rw [hL, hstep1, hret1, hstep2, hret2]
    · rw [hL, hstep1, hret1]
    · rw [hbody]
      rfl
    · rw [hbody]
      rfl
  · intro env cf ks₁ k rest hkeys hprev hisf hfail
    obtain ⟨cfg, infn, ds, hg, hu, hi, hr, hd⟩ := hfail
    have htb : l6TryBody env (lookupCF cf k) (basename (lookupCF cf k)) =
        ([Event.call (.getCfc (lookupCF cf k)),
          Event.call (.compliance "L6" cfg),
          Event.call (.getInfilename cfg), Event.call (.read infn)],
          TryOut.ret) := by
      unfold l6TryBody
      exact readfail_generic _ _ _ _ _ _ _ _ _ _ hg hu hi hr hd
    have hbody : l6Body env cf k =
        (Event.info ("Starting L6 processing with "
            ++ basename (lookupCF cf k)) ::
          [Event.call (.getCfc (lookupCF cf k)),
           Event.call (.compliance "L6" cfg),
           Event.call (.getInfilename cfg), Event.call (.read infn)],
          LoopCtl.ret) := by
      simp only [l6Body]
      rw [htb]
      rfl
    have h2 : (l6Body env cf k).2 = LoopCtl.ret := by rw [hbody]
    have hL : do_L6_batch noStop env cf
        = runLoopB noStop (fun i => env.isfile (lookupCF cf i))
            (missingEv cf) (l6Body env cf) (ks₁ ++ k :: rest) 0 [] := by
      unfold do_L6_batch do_L6_batch_go
      rw [hkeys]
    have hstep1 := runLoopB_append_next (fun i => env.isfile (lookupCF cf i))
      (missingEv cf) (l6Body env cf) ks₁ (k :: rest) hprev 0 []
    have hstep2 := runLoopB_append_next (fun i => env.isfile (lookupCF cf i))
      (missingEv cf) (l6Body env cf) ks₁ [k] hprev 0 []
    have hret1 := runLoopB_ret_head noStop
      (fun i => env.isfile (lookupCF cf i)) (missingEv cf) (l6Body env cf)
      k rest (0 + ks₁.countP (fun x => env.isfile (lookupCF cf x)))
      ([] ++ bodyEvtsB (fun i => env.isfile (lookupCF cf i)) (missingEv cf)
        (l6Body env cf) ks₁) hisf rfl h2
    have hret2 := runLoopB_ret_head noStop
      (fun i => env.isfile (lookupCF cf i)) (missingEv cf) (l6Body env cf)
      k [] (0 + ks₁.countP (fun x => env.isfile (lookupCF cf x)))
      ([] ++ bodyEvtsB (fun i => env.isfile (lookupCF cf i)) (missingEv cf)
        (l6Body env cf) ks₁) hisf rfl h2
    refine ⟨?_, ?_, h2, ?_, ?_⟩
    · rw [hL, hstep1, hret1, hstep2, hret2]
    · rw [hL, hstep1, hret1]
    · rw [hbody]
      rfl
    · rw [hbody]
      rfl

/-- The all-succeeding environment except that every dataset read returns
a dataset with return code 1. -/
def envReadFail : Env := { baseEnv with netCDFRead := fun _ => .ok ⟨1⟩ }

/-- **C9, witness.**  The L2 conjunct at a two-manifest control file set
whose first manifest's read fails: the whole run stops there and manifest
`"2"` is never touched. -/
theorem claim_C9_witness :
    ((([("1", "a"), ("2", "b")] : ControlFileSet).map Prod.fst)
        = [] ++ "1" :: ["2"])
    ∧ readFailAt envReadFail envReadFail.l2_update_controlfile
        (lookupCF [("1", "a"), ("2", "b")] "1")
    ∧ (traceExn (do_L2_batch noStop envReadFail [("1", "a"), ("2", "b")])
        = traceExn (runLoopA noStop
            (l2Body envReadFail [("1", "a"), ("2", "b")]) ([] ++ ["1"]) 0 [])
      ∧ (do_L2_batch noStop envReadFail [("1", "a"), ("2", "b")]).exn = none
      ∧ (l2Body envReadFail [("1", "a"), ("2", "b")] "1").2 = LoopCtl.ret
      ∧ handlerPaths (l2Body envReadFail [("1", "a"), ("2", "b")] "1").1 = []
      ∧ ((l2Body envReadFail [("1", "a"), ("2", "b")] "1").1.filter
          (fun e => match e with
            | Event.error _ => true | _ => false)) = []) :=
  ⟨rfl, ⟨"a", "a", ⟨1⟩, rfl, rfl, rfl, rfl, by decide⟩,
    claim_C9.1 envReadFail [("1", "a"), ("2", "b")] [] "1" ["2"] rfl
      (fun k' hk' => absurd hk' (List.not_mem_nil k'))
      ⟨"a", "a", ⟨1⟩, rfl, rfl, rfl, rfl, by decide⟩⟩

end PfpBatch
